import Mathlib

set_option maxRecDepth 4000

/-
Shallow embedding of the 8080gogo emulator (Go source, package main).
Machine integers are modelled as Nat with explicit `% 2^w` at the points
where the Go code performs fixed-width (uint8/uint16/uint32) arithmetic.
The 65536-byte memory array is a function `Nat → Nat`; reads and writes
normalize the address modulo 65536 and the stored value modulo 256,
matching Go's `[0x10000]byte` indexing by `uint16` values.
-/

namespace Emu8080

/-- Constant block from the source: ZERO. -/
def ZERO : Nat := 0xFF

/-- Constant block from the source: SIGN. -/
def SIGN : Nat := 0x80

/-- Constant block from the source: CARRY. -/
def CARRY : Nat := 0xFF

/-- Constant block from the source: ROUND. -/
def ROUND : Nat := 0xFF

/-- The Conditions struct, fields in source declaration order
(cy, pad1, p, pad2, ac, pad3, z, s) — the order matters for the
reflection-based flag packing in PUSH PSW. -/
structure Conditions where
  cy : Bool
  pad1 : Bool
  p : Bool
  pad2 : Bool
  ac : Bool
  pad3 : Bool
  z : Bool
  s : Bool
  deriving DecidableEq

/-- The 65536-byte memory array, as a function from address to byte. -/
def Mem : Type := Nat → Nat

/-- Read `m[addr]`: the Go array is indexed by a uint16 and stores bytes. -/
def memRead (m : Mem) (addr : Nat) : Nat := m (addr % 65536) % 256

/-- Write `m[addr] = v` for a byte value v. -/
def memWrite (m : Mem) (addr v : Nat) : Mem :=
  fun i => if i = addr % 65536 then v % 256 else m i

/-- 16-bit (uint16) addition with wraparound. -/
def add16 (x y : Nat) : Nat := (x + y) % 65536

/-- 16-bit (uint16) subtraction with wraparound. -/
def sub16 (x y : Nat) : Nat := (x % 65536 + 65536 - y % 65536) % 65536

/-- 8-bit (uint8) addition with wraparound. -/
def add8 (x y : Nat) : Nat := (x + y) % 256

/-- 8-bit (uint8) subtraction with wraparound. -/
def sub8 (x y : Nat) : Nat := (x % 256 + 256 - y % 256) % 256

/-- The State struct: registers, stack pointer, program counter, memory,
condition flags and the interrupt-enable byte. -/
structure State where
  a : Nat
  b : Nat
  c : Nat
  d : Nat
  e : Nat
  h : Nat
  l : Nat
  sp : Nat
  pc : Nat
  memory : Mem
  cond : Conditions
  enable : Nat

/-- getBC: `(uint16(s.b) << 8) | uint16(s.c)`. -/
def getBC (st : State) : Nat := ((st.b % 256) <<< 8) ||| (st.c % 256)

/-- setBC: `s.b = uint8((bc * 0xff00) >> 8); s.c = uint8(bc & 0xff)`
(the multiplication is in uint16 and wraps). -/
def setBC (st : State) (bc : Nat) : State :=
  { st with b := ((bc * 0xff00) % 65536) >>> 8, c := bc &&& 0xff }

/-- getDE: `(uint16(s.d) << 8) | uint16(s.e)`. -/
def getDE (st : State) : Nat := ((st.d % 256) <<< 8) ||| (st.e % 256)

/-- setDE: `s.e = uint8((de * 0xff00) >> 8); s.d = uint8(de & 0xff)`. -/
def setDE (st : State) (de : Nat) : State :=
  { st with e := ((de * 0xff00) % 65536) >>> 8, d := de &&& 0xff }

/-- getHL: `(uint16(s.h) << 8) | uint16(s.l)`. -/
def getHL (st : State) : Nat := ((st.h % 256) <<< 8) ||| (st.l % 256)

/-- setHL: `s.l = uint8((hl * 0xff00) >> 8); s.h = uint8(hl & 0xff)`. -/
def setHL (st : State) (hl : Nat) : State :=
  { st with l := ((hl * 0xff00) % 65536) >>> 8, h := hl &&& 0xff }

/-- getCarry: numeric view of CY. -/
def getCarry (st : State) : Nat := if st.cond.cy then 1 else 0

/-- setCarry: `s.cond.cy = ((result & 0xffff0000) != 0)` on a uint32 result. -/
def setCarry (st : State) (result : Nat) : State :=
  { st with cond := { st.cond with cy := (result &&& 0xffff0000) != 0 } }

/-- getAddr: little-endian 16-bit operand at pc+1 (low) and pc+2 (high). -/
def getAddr (st : State) : Nat :=
  (memRead st.memory (add16 st.pc 2) <<< 8) ||| memRead st.memory (add16 st.pc 1)

/-- The bit-counting loop of `parity`: count set bits among the low `n`
bits of `x`. -/
def countBits : Nat → Nat → Nat
  | _, 0 => 0
  | x, n + 1 => (x &&& 0x1) + countBits (x >>> 1) n

/-- parity: set P true iff the number of set bits in the low 8 bits is even. -/
def parity (st : State) (answer : Nat) : State :=
  { st with cond := { st.cond with p := (countBits (answer &&& 0xFF) 8 &&& 0x1) == 0 } }

/-- doArithFlags: Z from the low byte, S from bit 7, CY iff the raw uint16
answer exceeds 0xFF, P from the truncated byte.  (This version of the
routine does not write the accumulator.) -/
def doArithFlags (st : State) (answer : Nat) : State :=
  let s1 := { st with cond := { st.cond with
    z := (answer &&& ZERO) == 0,
    s := (answer &&& SIGN) != 0,
    cy := decide (answer > CARRY) } }
  parity s1 (answer % 256)

/-- doLogicFlags: Z and S from the accumulator, CY set to the negation of
AC (as in the source), P from the accumulator. -/
def doLogicFlags (st : State) : State :=
  let s1 := { st with cond := { st.cond with
    z := st.a == 0,
    s := (st.a &&& SIGN) != 0,
    cy := !st.cond.ac } }
  parity s1 st.a

/-- doZSPFlags: Z, S, P from an 8-bit result; CY untouched. -/
def doZSPFlags (st : State) (result : Nat) : State :=
  parity { st with cond := { st.cond with
    z := result == 0,
    s := (result &&& SIGN) != 0 } } result

/-- push: `memory[sp-1] = high; memory[sp-2] = low; sp -= 2`. -/
def push (st : State) (high low : Nat) : State :=
  let m1 := memWrite st.memory (sub16 st.sp 1) high
  let m2 := memWrite m1 (sub16 st.sp 2) low
  { st with memory := m2, sp := sub16 st.sp 2 }

/-- pop: `low = memory[sp]; high = memory[sp+1]; sp += 2`,
returned as (high, low, new state). -/
def pop (st : State) : Nat × Nat × State :=
  (memRead st.memory (add16 st.sp 1), memRead st.memory st.sp,
   { st with sp := add16 st.sp 2 })

/-- The PUSH PSW flag byte: the reflection loop ors in one bit per
Conditions field, in declaration order, with the flag mask doubling each
iteration. -/
def packPSW (c : Conditions) : Nat :=
  (if c.cy then 0x01 else 0) ||| (if c.pad1 then 0x02 else 0) |||
  (if c.p then 0x04 else 0) ||| (if c.pad2 then 0x08 else 0) |||
  (if c.ac then 0x10 else 0) ||| (if c.pad3 then 0x20 else 0) |||
  (if c.z then 0x40 else 0) ||| (if c.s then 0x80 else 0)

/-- Observable output of one Emulate call: the per-instruction trace line
`Printf("%06d: 0x%02x", s.pc, opcode)` and the `unimplemented` report
`Printf("Unimplemented: 0x%02x", opcode)`. -/
inductive OutEvent where
  | trace (pc opcode : Nat)
  | unimpl (opcode : Nat)
  deriving DecidableEq

/-- Result of one Emulate call: normal continuation, process exit via
HALT (`os.Exit(0)`), or fault via `unimplemented` (`os.Exit(1)`).  The
exit outcomes carry the state at the moment of exit. -/
inductive Outcome where
  | ok (st : State)
  | halt (st : State) (code : Nat)
  | fault (st : State) (code : Nat)

/-- The unconditional `s.pc += 1` after the switch statement. -/
def finish (st : State) : Outcome := Outcome.ok { st with pc := add16 st.pc 1 }

/-- The `unimplemented` method: report the opcode at pc and exit
with status 1. -/
def unimplemented (out : List OutEvent) (st : State) : List OutEvent × Outcome :=
  (out ++ [OutEvent.unimpl (memRead st.memory st.pc)], Outcome.fault st 1)

/-- Emulate switch cases for opcodes 0xf0 through 0xff, ending with the
default `unimplemented` case, which catches every opcode that has no case
of its own (such as 0x2e, 0x3e, 0xfb). -/
def EmulateGF (s0 : State) (opcode : Nat) (out : List OutEvent) :
    List OutEvent × Outcome :=
  if opcode = 0xf1 then -- POP PSW
    let pr := pop s0
    let st := { pr.2.2 with a := pr.1 }
    let low := pr.2.1
    (out, finish { st with cond := {
      cy := (low &&& 0x01) == 0x01,
      pad1 := (low &&& 0x02) == 0x02,
      p := (low &&& 0x04) == 0x04,
      pad2 := (low &&& 0x08) == 0x08,
      ac := (low &&& 0x10) == 0x10,
      pad3 := (low &&& 0x20) == 0x20,
      z := (low &&& 0x40) == 0x40,
      s := (low &&& 0x80) == 0x80 } })
  else if opcode = 0xf2 then -- JP adr
    if s0.cond.s then (out, finish { s0 with pc := add16 s0.pc 2 })
    else (out, finish { s0 with pc := getAddr s0 })
  else if opcode = 0xf5 then -- PUSH PSW
    (out, finish (push s0 s0.a (packPSW s0.cond)))
  else if opcode = 0xfa then -- JM adr
    if s0.cond.s then (out, finish { s0 with pc := getAddr s0 })
    else (out, finish { s0 with pc := add16 s0.pc 2 })
  else -- default: unimplemented
    unimplemented out s0

/-- Emulate switch cases for opcodes 0xe0 through 0xef. -/
def EmulateGE (s0 : State) (opcode : Nat) (out : List OutEvent) :
    List OutEvent × Outcome :=
  if opcode = 0xe1 then -- POP H
    let pr := pop s0
    (out, finish { pr.2.2 with h := pr.1, l := pr.2.1 })
  else if opcode = 0xe2 then -- JPO adr (source bug: not-taken advance is 1, not 2)
    if s0.cond.p then (out, finish { s0 with pc := add16 s0.pc 1 })
    else (out, finish { s0 with pc := getAddr s0 })
  else if opcode = 0xe5 then -- PUSH H
    (out, finish (push s0 s0.h s0.l))
  else if opcode = 0xea then -- JPE adr
    if s0.cond.p then (out, finish { s0 with pc := getAddr s0 })
    else (out, finish { s0 with pc := add16 s0.pc 2 })
  else
    EmulateGF s0 opcode out

/-- Emulate switch cases for opcodes 0xd0 through 0xdf. -/
def EmulateGD (s0 : State) (opcode : Nat) (out : List OutEvent) :
    List OutEvent × Outcome :=
  if opcode = 0xd1 then -- POP D
    let pr := pop s0
    (out, finish { pr.2.2 with d := pr.1, e := pr.2.1 })
  else if opcode = 0xd2 then -- JNC adr
    if s0.cond.cy then (out, finish { s0 with pc := add16 s0.pc 2 })
    else (out, finish { s0 with pc := getAddr s0 })
  else if opcode = 0xd5 then -- PUSH D
    (out, finish (push s0 s0.d s0.e))
  else if opcode = 0xda then -- JC adr
    if s0.cond.cy then (out, finish { s0 with pc := getAddr s0 })
    else (out, finish { s0 with pc := add16 s0.pc 2 })
  else
    EmulateGE s0 opcode out

/-- Emulate switch cases for opcodes 0xc0 through 0xcf. -/
def EmulateGC (s0 : State) (opcode : Nat) (out : List OutEvent) :
    List OutEvent × Outcome :=
  if opcode = 0xc1 then -- POP B
    let pr := pop s0
    (out, finish { pr.2.2 with b := pr.1, c := pr.2.1 })
  else if opcode = 0xc2 then -- JNZ adr
    if s0.cond.z then (out, finish { s0 with pc := add16 s0.pc 2 })
    else (out, finish { s0 with pc := getAddr s0 })
  else if opcode = 0xc3 then -- JMP adr
    (out, finish { s0 with pc := getAddr s0 })
  else if opcode = 0xc5 then -- PUSH B
    (out, finish (push s0 s0.b s0.c))
  else if opcode = 0xc6 then -- ADI D8
    let st := { s0 with pc := add16 s0.pc 1 }
    let answer := add16 st.a (memRead st.memory st.pc)
    let st := doArithFlags st answer
    (out, finish { st with a := answer &&& ROUND })
  else if opcode = 0xca then -- JZ adr
    if s0.cond.z then (out, finish { s0 with pc := getAddr s0 })
    else (out, finish { s0 with pc := add16 s0.pc 2 })
  else
    EmulateGD s0 opcode out

/-- Emulate switch cases for opcodes 0xb0 through 0xbf. -/
def EmulateGB (s0 : State) (opcode : Nat) (out : List OutEvent) :
    List OutEvent × Outcome :=
  if opcode = 0xb0 then -- ORA B
    (out, finish (doLogicFlags { s0 with a := s0.a ||| s0.b }))
  else if opcode = 0xb1 then -- ORA C
    (out, finish (doLogicFlags { s0 with a := s0.a ||| s0.c }))
  else if opcode = 0xb2 then -- ORA D
    (out, finish (doLogicFlags { s0 with a := s0.a ||| s0.d }))
  else if opcode = 0xb3 then -- ORA E
    (out, finish (doLogicFlags { s0 with a := s0.a ||| s0.e }))
  else if opcode = 0xb4 then -- ORA H
    (out, finish (doLogicFlags { s0 with a := s0.a ||| s0.h }))
  else if opcode = 0xb5 then -- ORA L
    (out, finish (doLogicFlags { s0 with a := s0.a ||| s0.l }))
  else if opcode = 0xb6 then -- ORA M (source reads memory[getAddr])
    let st := { s0 with a := s0.a ||| memRead s0.memory (getAddr s0) }
    let st := { st with pc := add16 st.pc 2 }
    (out, finish (doLogicFlags st))
  else if opcode = 0xb7 then -- ORA A
    (out, finish (doLogicFlags { s0 with a := s0.a ||| s0.a }))
  else if opcode = 0xb8 then -- CMP B
    (out, finish (doArithFlags s0 (sub16 s0.a s0.b)))
  else if opcode = 0xb9 then -- CMP C
    (out, finish (doArithFlags s0 (sub16 s0.a s0.c)))
  else if opcode = 0xba then -- CMP D
    (out, finish (doArithFlags s0 (sub16 s0.a s0.d)))
  else if opcode = 0xbb then -- CMP E
    (out, finish (doArithFlags s0 (sub16 s0.a s0.e)))
  else if opcode = 0xbc then -- CMP H
    (out, finish (doArithFlags s0 (sub16 s0.a s0.h)))
  else if opcode = 0xbd then -- CMP L
    (out, finish (doArithFlags s0 (sub16 s0.a s0.l)))
  else if opcode = 0xbe then -- CMP M (source reads memory[getAddr])
    let st := doArithFlags s0 (sub16 s0.a (memRead s0.memory (getAddr s0)))
    (out, finish { st with pc := add16 st.pc 2 })
  else if opcode = 0xbf then -- CMP A
    (out, finish (doArithFlags s0 (sub16 s0.a s0.a)))
  else
    EmulateGC s0 opcode out

/-- Emulate switch cases for opcodes 0xa0 through 0xaf. -/
def EmulateGA (s0 : State) (opcode : Nat) (out : List OutEvent) :
    List OutEvent × Outcome :=
  if opcode = 0xa0 then -- ANA B
    (out, finish (doLogicFlags { s0 with a := s0.a &&& s0.b }))
  else if opcode = 0xa1 then -- ANA C
    (out, finish (doLogicFlags { s0 with a := s0.a &&& s0.c }))
  else if opcode = 0xa2 then -- ANA D
    (out, finish (doLogicFlags { s0 with a := s0.a &&& s0.d }))
  else if opcode = 0xa3 then -- ANA E
    (out, finish (doLogicFlags { s0 with a := s0.a &&& s0.e }))
  else if opcode = 0xa4 then -- ANA H
    (out, finish (doLogicFlags { s0 with a := s0.a &&& s0.h }))
  else if opcode = 0xa5 then -- ANA L
    (out, finish (doLogicFlags { s0 with a := s0.a &&& s0.l }))
  else if opcode = 0xa6 then -- ANA M (source bug: reads memory[getCarry()])
    let st := { s0 with a := s0.a &&& memRead s0.memory (getCarry s0) }
    let st := { st with pc := add16 st.pc 2 }
    (out, finish (doLogicFlags st))
  else if opcode = 0xa7 then -- ANA A
    (out, finish (doLogicFlags { s0 with a := s0.a &&& s0.a }))
  else if opcode = 0xa8 then -- XRA B
    (out, finish (doLogicFlags { s0 with a := s0.a ^^^ s0.b }))
  else if opcode = 0xa9 then -- XRA C
    (out, finish (doLogicFlags { s0 with a := s0.a ^^^ s0.c }))
  else if opcode = 0xaa then -- XRA D
    (out, finish (doLogicFlags { s0 with a := s0.a ^^^ s0.d }))
  else if opcode = 0xab then -- XRA E
    (out, finish (doLogicFlags { s0 with a := s0.a ^^^ s0.e }))
  else if opcode = 0xac then -- XRA H
    (out, finish (doLogicFlags { s0 with a := s0.a ^^^ s0.h }))
  else if opcode = 0xad then -- XRA L
    (out, finish (doLogicFlags { s0 with a := s0.a ^^^ s0.l }))
  else if opcode = 0xae then -- XRA M (source reads memory[getAddr])
    let st := { s0 with a := s0.a ^^^ memRead s0.memory (getAddr s0) }
    let st := { st with pc := add16 st.pc 2 }
    (out, finish (doLogicFlags st))
  else if opcode = 0xaf then -- XRA A
    (out, finish (doLogicFlags { s0 with a := s0.a ^^^ s0.a }))
  else
    EmulateGB s0 opcode out

/-- Emulate switch cases for opcodes 0x90 through 0x9f. -/
def EmulateG9 (s0 : State) (opcode : Nat) (out : List OutEvent) :
    List OutEvent × Outcome :=
  if opcode = 0x90 then -- SUB B
    let answer := sub16 s0.a s0.b
    let st := doArithFlags s0 answer
    (out, finish { st with a := answer &&& ROUND })
  else if opcode = 0x91 then -- SUB C
    let answer := sub16 s0.a s0.c
    let st := doArithFlags s0 answer
    (out, finish { st with a := answer &&& ROUND })
  else if opcode = 0x92 then -- SUB D
    let answer := sub16 s0.a s0.d
    let st := doArithFlags s0 answer
    (out, finish { st with a := answer &&& ROUND })
  else if opcode = 0x93 then -- SUB E
    let answer := sub16 s0.a s0.e
    let st := doArithFlags s0 answer
    (out, finish { st with a := answer &&& ROUND })
  else if opcode = 0x94 then -- SUB H
    let answer := sub16 s0.a s0.h
    let st := doArithFlags s0 answer
    (out, finish { st with a := answer &&& ROUND })
  else if opcode = 0x95 then -- SUB L
    let answer := sub16 s0.a s0.l
    let st := doArithFlags s0 answer
    (out, finish { st with a := answer &&& ROUND })
  else if opcode = 0x96 then -- SUB M
    let answer := sub16 s0.a (memRead s0.memory (getHL s0))
    let st := doArithFlags s0 answer
    (out, finish { st with a := answer &&& ROUND })
  else if opcode = 0x97 then -- SUB A
    let answer := sub16 s0.a s0.a
    let st := doArithFlags s0 answer
    (out, finish { st with a := answer &&& ROUND })
  else if opcode = 0x98 then -- SBB B
    let answer := sub16 (sub16 s0.a s0.b) (getCarry s0)
    let st := doArithFlags s0 answer
    (out, finish { st with a := answer &&& ROUND })
  else if opcode = 0x99 then -- SBB C
    let answer := sub16 (sub16 s0.a s0.c) (getCarry s0)
    let st := doArithFlags s0 answer
    (out, finish { st with a := answer &&& ROUND })
  else if opcode = 0x9A then -- SBB D
    let answer := sub16 (sub16 s0.a s0.d) (getCarry s0)
    let st := doArithFlags s0 answer
    (out, finish { st with a := answer &&& ROUND })
  else if opcode = 0x9B then -- SBB E
    let answer := sub16 (sub16 s0.a s0.e) (getCarry s0)
    let st := doArithFlags s0 answer
    (out, finish { st with a := answer &&& ROUND })
  else if opcode = 0x9C then -- SBB H
    let answer := sub16 (sub16 s0.a s0.h) (getCarry s0)
    let st := doArithFlags s0 answer
    (out, finish { st with a := answer &&& ROUND })
  else if opcode = 0x9D then -- SBB L
    let answer := sub16 (sub16 s0.a s0.l) (getCarry s0)
    let st := doArithFlags s0 answer
    (out, finish { st with a := answer &&& ROUND })
  else if opcode = 0x9E then -- SBB M
    let answer := sub16 (sub16 s0.a (memRead s0.memory (getHL s0))) (getCarry s0)
    let st := doArithFlags s0 answer
    (out, finish { st with a := answer &&& ROUND })
  else if opcode = 0x9F then -- SBB A (source bug: operand is register D)
    let answer := sub16 (sub16 s0.a s0.d) (getCarry s0)
    let st := doArithFlags s0 answer
    (out, finish { st with a := answer &&& ROUND })
  else
    EmulateGA s0 opcode out

/-- Emulate switch cases for opcodes 0x80 through 0x8f. -/
def EmulateG8 (s0 : State) (opcode : Nat) (out : List OutEvent) :
    List OutEvent × Outcome :=
  if opcode = 0x80 then -- ADD B
    let answer := add16 s0.a s0.b
    let st := doArithFlags s0 answer
    (out, finish { st with a := answer &&& ROUND })
  else if opcode = 0x81 then -- ADD C
    let answer := add16 s0.a s0.c
    let st := doArithFlags s0 answer
    (out, finish { st with a := answer &&& ROUND })
  else if opcode = 0x82 then -- ADD D
    let answer := add16 s0.a s0.d
    let st := doArithFlags s0 answer
    (out, finish { st with a := answer &&& ROUND })
  else if opcode = 0x83 then -- ADD E
    let answer := add16 s0.a s0.e
    let st := doArithFlags s0 answer
    (out, finish { st with a := answer &&& ROUND })
  else if opcode = 0x84 then -- ADD H
    let answer := add16 s0.a s0.h
    let st := doArithFlags s0 answer
    (out, finish { st with a := answer &&& ROUND })
  else if opcode = 0x85 then -- ADD L
    let answer := add16 s0.a s0.l
    let st := doArithFlags s0 answer
    (out, finish { st with a := answer &&& ROUND })
  else if opcode = 0x86 then -- ADD M
    let answer := add16 s0.a (memRead s0.memory (getHL s0))
    let st := doArithFlags s0 answer
    (out, finish { st with a := answer &&& ROUND })
  else if opcode = 0x87 then -- ADD A
    let answer := add16 s0.a s0.a
    let st := doArithFlags s0 answer
    (out, finish { st with a := answer &&& ROUND })
  else if opcode = 0x88 then -- ADC B
    let answer := add16 (add16 s0.a s0.b) (getCarry s0)
    let st := doArithFlags s0 answer
    (out, finish { st with a := answer &&& ROUND })
  else if opcode = 0x89 then -- ADC C
    let answer := add16 (add16 s0.a s0.c) (getCarry s0)
    let st := doArithFlags s0 answer
    (out, finish { st with a := answer &&& ROUND })
  else if opcode = 0x8A then -- ADC D
    let answer := add16 (add16 s0.a s0.d) (getCarry s0)
    let st := doArithFlags s0 answer
    (out, finish { st with a := answer &&& ROUND })
  else if opcode = 0x8B then -- ADC E
    let answer := add16 (add16 s0.a s0.e) (getCarry s0)
    let st := doArithFlags s0 answer
    (out, finish { st with a := answer &&& ROUND })
  else if opcode = 0x8C then -- ADC H
    let answer := add16 (add16 s0.a s0.h) (getCarry s0)
    let st := doArithFlags s0 answer
    (out, finish { st with a := answer &&& ROUND })
  else if opcode = 0x8D then -- ADC L
    let answer := add16 (add16 s0.a s0.l) (getCarry s0)
    let st := doArithFlags s0 answer
    (out, finish { st with a := answer &&& ROUND })
  else if opcode = 0x8E then -- ADC M
    let answer := add16 (add16 s0.a (memRead s0.memory (getHL s0))) (getCarry s0)
    let st := doArithFlags s0 answer
    (out, finish { st with a := answer &&& ROUND })
  else if opcode = 0x8F then -- ADC A (source bug: operand is register D)
    let answer := add16 (add16 s0.a s0.d) (getCarry s0)
    let st := doArithFlags s0 answer
    (out, finish { st with a := answer &&& ROUND })
  else
    EmulateG9 s0 opcode out

/-- Emulate switch cases for opcodes 0x70 through 0x7f. -/
def EmulateG7 (s0 : State) (opcode : Nat) (out : List OutEvent) :
    List OutEvent × Outcome :=
  if opcode = 0x70 then -- MOV M,B
    (out, finish { s0 with memory := memWrite s0.memory (getAddr s0) s0.b })
  else if opcode = 0x71 then -- MOV M,C
    (out, finish { s0 with memory := memWrite s0.memory (getAddr s0) s0.c })
  else if opcode = 0x72 then -- MOV M,D
    (out, finish { s0 with memory := memWrite s0.memory (getAddr s0) s0.d })
  else if opcode = 0x73 then -- MOV M,E
    (out, finish { s0 with memory := memWrite s0.memory (getAddr s0) s0.e })
  else if opcode = 0x74 then -- MOV M,H
    (out, finish { s0 with memory := memWrite s0.memory (getAddr s0) s0.h })
  else if opcode = 0x75 then -- MOV M,L
    (out, finish { s0 with memory := memWrite s0.memory (getAddr s0) s0.l })
  else if opcode = 0x76 then -- HALT: os.Exit(0)
    (out, Outcome.halt s0 0)
  else if opcode = 0x77 then -- MOV M,A
    (out, finish { s0 with memory := memWrite s0.memory (getAddr s0) s0.a })
  else if opcode = 0x78 then -- MOV A,B
    (out, finish { s0 with a := s0.b })
  else if opcode = 0x79 then -- MOV A,C
    (out, finish { s0 with a := s0.c })
  else if opcode = 0x7a then -- MOV A,D
    (out, finish { s0 with a := s0.d })
  else if opcode = 0x7b then -- MOV A,E
    (out, finish { s0 with a := s0.e })
  else if opcode = 0x7c then -- MOV A,H
    (out, finish { s0 with a := s0.h })
  else if opcode = 0x7d then -- MOV A,L
    (out, finish { s0 with a := s0.l })
  else if opcode = 0x7e then -- MOV A,M
    (out, finish { s0 with a := memRead s0.memory (getAddr s0) })
  else if opcode = 0x7f then -- MOV A,A
    (out, finish { s0 with a := s0.a })
  else
    EmulateG8 s0 opcode out

/-- Emulate switch cases for opcodes 0x60 through 0x6f. -/
def EmulateG6 (s0 : State) (opcode : Nat) (out : List OutEvent) :
    List OutEvent × Outcome :=
  if opcode = 0x60 then -- MOV H,B
    (out, finish { s0 with h := s0.b })
  else if opcode = 0x61 then -- MOV H,C
    (out, finish { s0 with h := s0.c })
  else if opcode = 0x62 then -- MOV H,D
    (out, finish { s0 with h := s0.d })
  else if opcode = 0x63 then -- MOV H,E
    (out, finish { s0 with h := s0.e })
  else if opcode = 0x64 then -- MOV H,H
    (out, finish { s0 with h := s0.h })
  else if opcode = 0x65 then -- MOV H,L
    (out, finish { s0 with h := s0.l })
  else if opcode = 0x66 then -- MOV H,M
    (out, finish { s0 with h := memRead s0.memory (getAddr s0) })
  else if opcode = 0x67 then -- MOV H,A
    (out, finish { s0 with h := s0.a })
  else if opcode = 0x68 then -- MOV L,B
    (out, finish { s0 with l := s0.b })
  else if opcode = 0x69 then -- MOV L,C
    (out, finish { s0 with l := s0.c })
  else if opcode = 0x6a then -- MOV L,D
    (out, finish { s0 with l := s0.d })
  else if opcode = 0x6b then -- MOV L,E
    (out, finish { s0 with l := s0.e })
  else if opcode = 0x6c then -- MOV L,H
    (out, finish { s0 with l := s0.h })
  else if opcode = 0x6d then -- MOV L,L
    (out, finish { s0 with l := s0.l })
  else if opcode = 0x6e then -- MOV L,M
    (out, finish { s0 with l := memRead s0.memory (getAddr s0) })
  else if opcode = 0x6f then -- MOV L,A
    (out, finish { s0 with l := s0.a })
  else
    EmulateG7 s0 opcode out

/-- Emulate switch cases for opcodes 0x50 through 0x5f. -/
def EmulateG5 (s0 : State) (opcode : Nat) (out : List OutEvent) :
    List OutEvent × Outcome :=
  if opcode = 0x50 then -- MOV D,B
    (out, finish { s0 with d := s0.b })
  else if opcode = 0x51 then -- MOV D,C
    (out, finish { s0 with d := s0.c })
  else if opcode = 0x52 then -- MOV D,D
    (out, finish { s0 with d := s0.d })
  else if opcode = 0x53 then -- MOV D,E
    (out, finish { s0 with d := s0.e })
  else if opcode = 0x54 then -- MOV D,H
    (out, finish { s0 with d := s0.h })
  else if opcode = 0x55 then -- MOV D,L
    (out, finish { s0 with d := s0.l })
  else if opcode = 0x56 then -- MOV D,M
    (out, finish { s0 with d := memRead s0.memory (getAddr s0) })
  else if opcode = 0x57 then -- MOV D,A
    (out, finish { s0 with d := s0.a })
  else if opcode = 0x58 then -- MOV E,B
    (out, finish { s0 with e := s0.b })
  else if opcode = 0x59 then -- MOV E,C
    (out, finish { s0 with e := s0.c })
  else if opcode = 0x5a then -- MOV E,D
    (out, finish { s0 with e := s0.d })
  else if opcode = 0x5b then -- MOV E,E
    (out, finish { s0 with e := s0.e })
  else if opcode = 0x5c then -- MOV E,H
    (out, finish { s0 with e := s0.h })
  else if opcode = 0x5d then -- MOV E,L
    (out, finish { s0 with e := s0.l })
  else if opcode = 0x5e then -- MOV E,M
    (out, finish { s0 with e := memRead s0.memory (getAddr s0) })
  else if opcode = 0x5f then -- MOV E,A
    (out, finish { s0 with e := s0.a })
  else
    EmulateG6 s0 opcode out

/-- Emulate switch cases for opcodes 0x40 through 0x4f. -/
def EmulateG4 (s0 : State) (opcode : Nat) (out : List OutEvent) :
    List OutEvent × Outcome :=
  if opcode = 0x40 then -- MOV B,B
    (out, finish { s0 with b := s0.b })
  else if opcode = 0x41 then -- MOV B,C
    (out, finish { s0 with b := s0.c })
  else if opcode = 0x42 then -- MOV B,D
    (out, finish { s0 with b := s0.d })
  else if opcode = 0x43 then -- MOV B,E
    (out, finish { s0 with b := s0.e })
  else if opcode = 0x44 then -- MOV B,H
    (out, finish { s0 with b := s0.h })
  else if opcode = 0x45 then -- MOV B,L
    (out, finish { s0 with b := s0.l })
  else if opcode = 0x46 then -- MOV B,M (source reads memory[getAddr], not memory[HL])
    (out, finish { s0 with b := memRead s0.memory (getAddr s0) })
  else if opcode = 0x47 then -- MOV B,A
    (out, finish { s0 with b := s0.a })
  else if opcode = 0x48 then -- MOV C,B
    (out, finish { s0 with c := s0.b })
  else if opcode = 0x49 then -- MOV C,C
    (out, finish { s0 with c := s0.c })
  else if opcode = 0x4a then -- MOV C,D
    (out, finish { s0 with c := s0.d })
  else if opcode = 0x4b then -- MOV C,E
    (out, finish { s0 with c := s0.e })
  else if opcode = 0x4c then -- MOV C,H
    (out, finish { s0 with c := s0.h })
  else if opcode = 0x4d then -- MOV C,L
    (out, finish { s0 with c := s0.l })
  else if opcode = 0x4e then -- MOV C,M
    (out, finish { s0 with c := memRead s0.memory (getAddr s0) })
  else if opcode = 0x4f then -- MOV C,A
    (out, finish { s0 with c := s0.a })
  else
    EmulateG5 s0 opcode out

/-- Emulate switch cases for opcodes 0x30 through 0x3f. -/
def EmulateG3 (s0 : State) (opcode : Nat) (out : List OutEvent) :
    List OutEvent × Outcome :=
  if opcode = 0x30 then -- SIM
    unimplemented out s0
  else if opcode = 0x31 then -- LXI SP,D16
    (out, finish { s0 with sp := getAddr s0, pc := add16 s0.pc 2 })
  else if opcode = 0x32 then -- STA adr (source advances pc by only 1 here)
    let st := { s0 with memory := memWrite s0.memory (getAddr s0) s0.a }
    (out, finish { st with pc := add16 st.pc 1 })
  else if opcode = 0x33 then -- INX SP
    (out, finish { s0 with sp := add16 s0.sp 1 })
  else if opcode = 0x34 then -- INR M
    let hl := getHL s0
    let st := { s0 with memory := memWrite s0.memory hl (add8 (memRead s0.memory hl) 1) }
    (out, finish (doZSPFlags st (memRead st.memory hl)))
  else if opcode = 0x35 then -- DCR M
    let hl := getHL s0
    let st := { s0 with memory := memWrite s0.memory hl (sub8 (memRead s0.memory hl) 1) }
    (out, finish (doZSPFlags st (memRead st.memory hl)))
  else if opcode = 0x36 then -- MVI M,D8
    let st := { s0 with pc := add16 s0.pc 1 }
    (out, finish { st with memory := memWrite st.memory (getHL st) (memRead st.memory st.pc) })
  else if opcode = 0x37 then -- STC
    (out, finish { s0 with cond := { s0.cond with cy := true } })
  else if opcode = 0x38 then -- Unimplemented
    unimplemented out s0
  else if opcode = 0x39 then -- DAD SP
    let result := (getHL s0 + s0.sp % 65536) % 4294967296
    let st := setHL s0 (result % 65536)
    (out, finish (setCarry st result))
  else if opcode = 0x3a then -- LDA adr
    let st := { s0 with a := memRead s0.memory (getAddr s0) }
    (out, finish { st with pc := add16 st.pc 2 })
  else if opcode = 0x3b then -- DCX SP
    (out, finish { s0 with sp := sub16 s0.sp 1 })
  else if opcode = 0x3c then -- INR A
    let st := { s0 with a := add8 s0.a 1 }
    (out, finish (doZSPFlags st st.a))
  else if opcode = 0x3d then -- DCR A
    let st := { s0 with a := sub8 s0.a 1 }
    (out, finish (doZSPFlags st st.a))
  else if opcode = 0x3f then -- CMC
    (out, finish { s0 with cond := { s0.cond with cy := !s0.cond.cy } })
  else
    EmulateG4 s0 opcode out

/-- Emulate switch cases for opcodes 0x20 through 0x2f. -/
def EmulateG2 (s0 : State) (opcode : Nat) (out : List OutEvent) :
    List OutEvent × Outcome :=
  if opcode = 0x20 then -- RIM
    unimplemented out s0
  else if opcode = 0x21 then -- LXI H, D16
    let st := { s0 with pc := add16 s0.pc 1 }
    let st := { st with l := memRead st.memory st.pc }
    let st := { st with pc := add16 st.pc 1 }
    let st := { st with h := memRead st.memory st.pc }
    (out, finish st)
  else if opcode = 0x22 then -- SHLD adr
    let adr := getAddr s0
    let st := { s0 with pc := add16 s0.pc 2 }
    let st := { st with memory := memWrite st.memory adr st.l }
    let st := { st with memory := memWrite st.memory (add16 adr 1) st.h }
    (out, finish st)
  else if opcode = 0x23 then -- INX H
    (out, finish (setHL s0 (add16 (getHL s0) 1)))
  else if opcode = 0x24 then -- INR H
    let st := { s0 with h := add8 s0.h 1 }
    (out, finish (doZSPFlags st st.h))
  else if opcode = 0x25 then -- DCR H
    let st := { s0 with h := sub8 s0.h 1 }
    (out, finish (doZSPFlags st st.h))
  else if opcode = 0x26 then -- MVI H,D8
    let st := { s0 with pc := add16 s0.pc 1 }
    (out, finish { st with h := memRead st.memory st.pc })
  else if opcode = 0x27 then -- DAA
    unimplemented out s0
  else if opcode = 0x28 then -- Unimplemented
    unimplemented out s0
  else if opcode = 0x29 then -- DAD H
    let result := (2 * getHL s0) % 4294967296
    let st := setHL s0 (result % 65536)
    (out, finish (setCarry st result))
  else if opcode = 0x2a then -- LHLD adr
    let adr := getAddr s0
    let st := { s0 with pc := add16 s0.pc 2 }
    let st := { st with l := memRead st.memory adr }
    let st := { st with h := memRead st.memory (add16 adr 1) }
    (out, finish st)
  else if opcode = 0x2b then -- DCX H
    (out, finish (setHL s0 (sub16 (getHL s0) 1)))
  else if opcode = 0x2c then -- INR L
    let st := { s0 with l := add8 s0.l 1 }
    (out, finish (doZSPFlags st st.l))
  else if opcode = 0x2d then -- DCR L
    let st := { s0 with l := sub8 s0.l 1 }
    (out, finish (doZSPFlags st st.l))
  else if opcode = 0x2f then -- CMA
    (out, finish { s0 with a := s0.a ^^^ 0xFF })
  else
    EmulateG3 s0 opcode out

/-- Emulate switch cases for opcodes 0x10 through 0x1f. -/
def EmulateG1 (s0 : State) (opcode : Nat) (out : List OutEvent) :
    List OutEvent × Outcome :=
  if opcode = 0x10 then -- Unimplemented
    unimplemented out s0
  else if opcode = 0x11 then -- LXI D, word
    let st := { s0 with pc := add16 s0.pc 1 }
    let st := { st with e := memRead st.memory st.pc }
    let st := { st with pc := add16 st.pc 1 }
    let st := { st with d := memRead st.memory st.pc }
    (out, finish st)
  else if opcode = 0x12 then -- STAX D
    (out, finish { s0 with memory := memWrite s0.memory (getDE s0) s0.a })
  else if opcode = 0x13 then -- INX D (source bug: repeats STAX D)
    (out, finish { s0 with memory := memWrite s0.memory (getDE s0) s0.a })
  else if opcode = 0x14 then -- INR D
    let st := { s0 with d := add8 s0.d 1 }
    (out, finish (doZSPFlags st st.d))
  else if opcode = 0x15 then -- DCR D
    let st := { s0 with d := sub8 s0.d 1 }
    (out, finish (doZSPFlags st st.d))
  else if opcode = 0x16 then -- MVI D, D8
    let st := { s0 with pc := add16 s0.pc 1 }
    (out, finish { st with d := memRead st.memory st.pc })
  else if opcode = 0x17 then -- RAL (as in source: no shift is performed; CY from bit 7)
    if s0.cond.cy then
      (out, finish
        { s0 with
          a := s0.a ||| 0x01,
          cond := { s0.cond with cy := (s0.a &&& 0x80) == 0x80 } })
    else
      (out, finish { s0 with cond := { s0.cond with cy := (s0.a &&& 0x80) == 0x80 } })
  else if opcode = 0x18 then -- Unimplemented
    unimplemented out s0
  else if opcode = 0x19 then -- DAD D
    let result := (getHL s0 + getDE s0) % 4294967296
    let st := { s0 with h := (((result * 0xff00) % 4294967296) >>> 8) % 256,
                        l := result &&& 0xff }
    (out, finish (setCarry st result))
  else if opcode = 0x1a then -- LDAX D
    (out, finish { s0 with a := memRead s0.memory (getDE s0) })
  else if opcode = 0x1b then -- DCX D
    (out, finish (setDE s0 (sub16 (getDE s0) 1)))
  else if opcode = 0x1c then -- INR E
    let st := { s0 with e := add8 s0.e 1 }
    (out, finish (doZSPFlags st st.e))
  else if opcode = 0x1d then -- DCR E
    let st := { s0 with e := sub8 s0.e 1 }
    (out, finish (doZSPFlags st st.e))
  else if opcode = 0x1e then -- MVI E,D8
    let st := { s0 with pc := add16 s0.pc 1 }
    (out, finish { st with e := memRead st.memory st.pc })
  else if opcode = 0x1f then -- RAR (as in source: bit 7 is kept, not CY)
    let st := { s0 with cond := { s0.cond with cy := (s0.a &&& 0x01) == 0x01 } }
    let bit7 := st.a &&& 0x80
    (out, finish { st with a := (st.a >>> 1) ||| bit7 })
  else
    EmulateG2 s0 opcode out

/-- Emulate switch cases for opcodes 0x00 through 0x0f. -/
def EmulateG0 (s0 : State) (opcode : Nat) (out : List OutEvent) :
    List OutEvent × Outcome :=
  if opcode = 0x00 then -- NOP
    (out, finish s0)
  else if opcode = 0x01 then -- LXI B,word
    let st := { s0 with pc := add16 s0.pc 1 }
    let st := { st with c := memRead st.memory st.pc }
    let st := { st with pc := add16 st.pc 1 }
    let st := { st with b := memRead st.memory st.pc }
    (out, finish st)
  else if opcode = 0x02 then -- STAX B
    (out, finish { s0 with memory := memWrite s0.memory (getBC s0) s0.a })
  else if opcode = 0x03 then -- INX B: c is incremented; if it wrapped to 0, b is incremented
    if add8 s0.c 1 = 0 then
      (out, finish { s0 with c := add8 s0.c 1, b := add8 s0.b 1 })
    else
      (out, finish { s0 with c := add8 s0.c 1 })
  else if opcode = 0x04 then -- INR B
    let st := { s0 with b := add8 s0.b 1 }
    (out, finish (doZSPFlags st st.b))
  else if opcode = 0x05 then -- DCR B
    let st := { s0 with b := sub8 s0.b 1 }
    (out, finish (doZSPFlags st st.b))
  else if opcode = 0x06 then -- MVI B, D8
    let st := { s0 with pc := add16 s0.pc 1 }
    (out, finish { st with b := memRead st.memory st.pc })
  else if opcode = 0x07 then -- RLC
    let bit7 := s0.a &&& 0x80
    let st := { s0 with a := ((s0.a <<< 1) % 256) ||| (bit7 >>> 7) }
    (out, finish { st with cond := { st.cond with cy := bit7 == 0x80 } })
  else if opcode = 0x08 then -- Unimplemented
    unimplemented out s0
  else if opcode = 0x09 then -- DAD B
    let result := (getHL s0 + getBC s0) % 4294967296
    let st := { s0 with h := (((result * 0xff00) % 4294967296) >>> 8) % 256,
                        l := result &&& 0xff }
    (out, finish (setCarry st result))
  else if opcode = 0x0a then -- LDAX B
    (out, finish { s0 with a := memRead s0.memory (getBC s0) })
  else if opcode = 0x0b then -- DCX B
    (out, finish (setBC s0 (sub16 (getBC s0) 1)))
  else if opcode = 0x0c then -- INR C
    let st := { s0 with c := add8 s0.c 1 }
    (out, finish (doZSPFlags st st.c))
  else if opcode = 0x0d then -- DCR C
    let st := { s0 with c := sub8 s0.c 1 }
    (out, finish (doZSPFlags st st.c))
  else if opcode = 0x0e then -- MVI C, D8
    let st := { s0 with pc := add16 s0.pc 1 }
    (out, finish { st with c := memRead st.memory st.pc })
  else if opcode = 0x0f then -- RRC
    let bit0 := s0.a &&& 0x01
    let st := { s0 with a := (s0.a >>> 1) ||| ((bit0 <<< 7) % 256) }
    (out, finish { st with cond := { st.cond with cy := bit0 == 0x01 } })
  else
    EmulateG1 s0 opcode out

/-- The Emulate method: fetch the opcode at pc, print the trace line,
dispatch on the opcode (the group functions above transliterate the Go
switch, sixteen cases at a time), then do `s.pc += 1` (the `finish` step)
unless the instruction called `os.Exit`. -/
def Emulate (s0 : State) : List OutEvent × Outcome :=
  let opcode := memRead s0.memory s0.pc
  let out : List OutEvent := [OutEvent.trace s0.pc opcode]
  EmulateG0 s0 opcode out

/-- Extract the continuation state from an `ok` outcome (default otherwise). -/
def forceOk (dflt : State) (o : Outcome) : State :=
  match o with
  | Outcome.ok t => t
  | Outcome.halt _ _ => dflt
  | Outcome.fault _ _ => dflt

/-- The startup state built by `main`: `new(State)` zero value with the ROM
bytes copied into the low addresses of memory. -/
def initState (rom : List Nat) : State :=
  { a := 0, b := 0, c := 0, d := 0, e := 0, h := 0, l := 0,
    sp := 0, pc := 0,
    memory := fun i => rom.getD i 0,
    cond := ⟨false, false, false, false, false, false, false, false⟩,
    enable := 0 }

/-- States reachable from the startup state by executing instructions that
continue normally (the driver loop `for { state.Emulate() }`). -/
inductive Reachable (rom : List Nat) : State → Prop where
  | init : Reachable rom (initState rom)
  | step {s s' : State} {out : List OutEvent} :
      Reachable rom s → Emulate s = (out, Outcome.ok s') → Reachable rom s'

/-- The opcodes to which the Emulate switch gives semantics (a case that is
not `unimplemented`); every other byte falls into the fault path. -/
def implementedOps : List Nat :=
  [0x00, 0x01, 0x02, 0x03, 0x04, 0x05, 0x06, 0x07,
   0x09, 0x0a, 0x0b, 0x0c, 0x0d, 0x0e, 0x0f,
   0x11, 0x12, 0x13, 0x14, 0x15, 0x16, 0x17,
   0x19, 0x1a, 0x1b, 0x1c, 0x1d, 0x1e, 0x1f,
   0x21, 0x22, 0x23, 0x24, 0x25, 0x26,
   0x29, 0x2a, 0x2b, 0x2c, 0x2d, 0x2f,
   0x31, 0x32, 0x33, 0x34, 0x35, 0x36, 0x37,
   0x39, 0x3a, 0x3b, 0x3c, 0x3d, 0x3f,
   0x40, 0x41, 0x42, 0x43, 0x44, 0x45, 0x46, 0x47,
   0x48, 0x49, 0x4a, 0x4b, 0x4c, 0x4d, 0x4e, 0x4f,
   0x50, 0x51, 0x52, 0x53, 0x54, 0x55, 0x56, 0x57,
   0x58, 0x59, 0x5a, 0x5b, 0x5c, 0x5d, 0x5e, 0x5f,
   0x60, 0x61, 0x62, 0x63, 0x64, 0x65, 0x66, 0x67,
   0x68, 0x69, 0x6a, 0x6b, 0x6c, 0x6d, 0x6e, 0x6f,
   0x70, 0x71, 0x72, 0x73, 0x74, 0x75, 0x76, 0x77,
   0x78, 0x79, 0x7a, 0x7b, 0x7c, 0x7d, 0x7e, 0x7f,
   0x80, 0x81, 0x82, 0x83, 0x84, 0x85, 0x86, 0x87,
   0x88, 0x89, 0x8a, 0x8b, 0x8c, 0x8d, 0x8e, 0x8f,
   0x90, 0x91, 0x92, 0x93, 0x94, 0x95, 0x96, 0x97,
   0x98, 0x99, 0x9a, 0x9b, 0x9c, 0x9d, 0x9e, 0x9f,
   0xa0, 0xa1, 0xa2, 0xa3, 0xa4, 0xa5, 0xa6, 0xa7,
   0xa8, 0xa9, 0xaa, 0xab, 0xac, 0xad, 0xae, 0xaf,
   0xb0, 0xb1, 0xb2, 0xb3, 0xb4, 0xb5, 0xb6, 0xb7,
   0xb8, 0xb9, 0xba, 0xbb, 0xbc, 0xbd, 0xbe, 0xbf,
   0xc1, 0xc2, 0xc3, 0xc5, 0xc6, 0xca,
   0xd1, 0xd2, 0xd5, 0xda,
   0xe1, 0xe2, 0xe5, 0xea,
   0xf1, 0xf2, 0xf5, 0xfa]

/-- Helper: group GF sends any opcode outside `implementedOps` to the
default `unimplemented` case. -/
theorem EmulateGF_unimpl (s : State) (opcode : Nat) (out : List OutEvent)
    (h : opcode ∉ implementedOps) :
    EmulateGF s opcode out = unimplemented out s := by
  by_cases hxf1 : opcode = 241
  · exact absurd (by rw [hxf1]; decide) h
  by_cases hxf2 : opcode = 242
  · exact absurd (by rw [hxf2]; decide) h
  by_cases hxf5 : opcode = 245
  · exact absurd (by rw [hxf5]; decide) h
  by_cases hxfa : opcode = 250
  · exact absurd (by rw [hxfa]; decide) h
  unfold EmulateGF
  rw [if_neg hxf1, if_neg hxf2, if_neg hxf5, if_neg hxfa]

/-- Helper: group GE sends any opcode outside `implementedOps` to the
default `unimplemented` case. -/
theorem EmulateGE_unimpl (s : State) (opcode : Nat) (out : List OutEvent)
    (h : opcode ∉ implementedOps) :
    EmulateGE s opcode out = unimplemented out s := by
  by_cases hxe1 : opcode = 225
  · exact absurd (by rw [hxe1]; decide) h
  by_cases hxe2 : opcode = 226
  · exact absurd (by rw [hxe2]; decide) h
  by_cases hxe5 : opcode = 229
  · exact absurd (by rw [hxe5]; decide) h
  by_cases hxea : opcode = 234
  · exact absurd (by rw [hxea]; decide) h
  unfold EmulateGE
  rw [if_neg hxe1, if_neg hxe2, if_neg hxe5, if_neg hxea]
  exact EmulateGF_unimpl s opcode out h

/-- Helper: group GD sends any opcode outside `implementedOps` to the
default `unimplemented` case. -/
theorem EmulateGD_unimpl (s : State) (opcode : Nat) (out : List OutEvent)
    (h : opcode ∉ implementedOps) :
    EmulateGD s opcode out = unimplemented out s := by
  by_cases hxd1 : opcode = 209
  · exact absurd (by rw [hxd1]; decide) h
  by_cases hxd2 : opcode = 210
  · exact absurd (by rw [hxd2]; decide) h
  by_cases hxd5 : opcode = 213
  · exact absurd (by rw [hxd5]; decide) h
  by_cases hxda : opcode = 218
  · exact absurd (by rw [hxda]; decide) h
  unfold EmulateGD
  rw [if_neg hxd1, if_neg hxd2, if_neg hxd5, if_neg hxda]
  exact EmulateGE_unimpl s opcode out h

/-- Helper: group GC sends any opcode outside `implementedOps` to the
default `unimplemented` case. -/
theorem EmulateGC_unimpl (s : State) (opcode : Nat) (out : List OutEvent)
    (h : opcode ∉ implementedOps) :
    EmulateGC s opcode out = unimplemented out s := by
  by_cases hxc1 : opcode = 193
  · exact absurd (by rw [hxc1]; decide) h
  by_cases hxc2 : opcode = 194
  · exact absurd (by rw [hxc2]; decide) h
  by_cases hxc3 : opcode = 195
  · exact absurd (by rw [hxc3]; decide) h
  by_cases hxc5 : opcode = 197
  · exact absurd (by rw [hxc5]; decide) h
  by_cases hxc6 : opcode = 198
  · exact absurd (by rw [hxc6]; decide) h
  by_cases hxca : opcode = 202
  · exact absurd (by rw [hxca]; decide) h
  unfold EmulateGC
  rw [if_neg hxc1, if_neg hxc2, if_neg hxc3, if_neg hxc5, if_neg hxc6, if_neg hxca]
  exact EmulateGD_unimpl s opcode out h

/-- Helper: group GB sends any opcode outside `implementedOps` to the
default `unimplemented` case. -/
theorem EmulateGB_unimpl (s : State) (opcode : Nat) (out : List OutEvent)
    (h : opcode ∉ implementedOps) :
    EmulateGB s opcode out = unimplemented out s := by
  by_cases hxb0 : opcode = 176
  · exact absurd (by rw [hxb0]; decide) h
  by_cases hxb1 : opcode = 177
  · exact absurd (by rw [hxb1]; decide) h
  by_cases hxb2 : opcode = 178
  · exact absurd (by rw [hxb2]; decide) h
  by_cases hxb3 : opcode = 179
  · exact absurd (by rw [hxb3]; decide) h
  by_cases hxb4 : opcode = 180
  · exact absurd (by rw [hxb4]; decide) h
  by_cases hxb5 : opcode = 181
  · exact absurd (by rw [hxb5]; decide) h
  by_cases hxb6 : opcode = 182
  · exact absurd (by rw [hxb6]; decide) h
  by_cases hxb7 : opcode = 183
  · exact absurd (by rw [hxb7]; decide) h
  by_cases hxb8 : opcode = 184
  · exact absurd (by rw [hxb8]; decide) h
  by_cases hxb9 : opcode = 185
  · exact absurd (by rw [hxb9]; decide) h
  by_cases hxba : opcode = 186
  · exact absurd (by rw [hxba]; decide) h
  by_cases hxbb : opcode = 187
  · exact absurd (by rw [hxbb]; decide) h
  by_cases hxbc : opcode = 188
  · exact absurd (by rw [hxbc]; decide) h
  by_cases hxbd : opcode = 189
  · exact absurd (by rw [hxbd]; decide) h
  by_cases hxbe : opcode = 190
  · exact absurd (by rw [hxbe]; decide) h
  by_cases hxbf : opcode = 191
  · exact absurd (by rw [hxbf]; decide) h
  unfold EmulateGB
  rw [if_neg hxb0, if_neg hxb1, if_neg hxb2, if_neg hxb3, if_neg hxb4, if_neg hxb5, if_neg hxb6, if_neg hxb7, if_neg hxb8, if_neg hxb9, if_neg hxba, if_neg hxbb, if_neg hxbc, if_neg hxbd, if_neg hxbe, if_neg hxbf]
  exact EmulateGC_unimpl s opcode out h

/-- Helper: group GA sends any opcode outside `implementedOps` to the
default `unimplemented` case. -/
theorem EmulateGA_unimpl (s : State) (opcode : Nat) (out : List OutEvent)
    (h : opcode ∉ implementedOps) :
    EmulateGA s opcode out = unimplemented out s := by
  by_cases hxa0 : opcode = 160
  · exact absurd (by rw [hxa0]; decide) h
  by_cases hxa1 : opcode = 161
  · exact absurd (by rw [hxa1]; decide) h
  by_cases hxa2 : opcode = 162
  · exact absurd (by rw [hxa2]; decide) h
  by_cases hxa3 : opcode = 163
  · exact absurd (by rw [hxa3]; decide) h
  by_cases hxa4 : opcode = 164
  · exact absurd (by rw [hxa4]; decide) h
  by_cases hxa5 : opcode = 165
  · exact absurd (by rw [hxa5]; decide) h
  by_cases hxa6 : opcode = 166
  · exact absurd (by rw [hxa6]; decide) h
  by_cases hxa7 : opcode = 167
  · exact absurd (by rw [hxa7]; decide) h
  by_cases hxa8 : opcode = 168
  · exact absurd (by rw [hxa8]; decide) h
  by_cases hxa9 : opcode = 169
  · exact absurd (by rw [hxa9]; decide) h
  by_cases hxaa : opcode = 170
  · exact absurd (by rw [hxaa]; decide) h
  by_cases hxab : opcode = 171
  · exact absurd (by rw [hxab]; decide) h
  by_cases hxac : opcode = 172
  · exact absurd (by rw [hxac]; decide) h
  by_cases hxad : opcode = 173
  · exact absurd (by rw [hxad]; decide) h
  by_cases hxae : opcode = 174
  · exact absurd (by rw [hxae]; decide) h
  by_cases hxaf : opcode = 175
  · exact absurd (by rw [hxaf]; decide) h
  unfold EmulateGA
  rw [if_neg hxa0, if_neg hxa1, if_neg hxa2, if_neg hxa3, if_neg hxa4, if_neg hxa5, if_neg hxa6, if_neg hxa7, if_neg hxa8, if_neg hxa9, if_neg hxaa, if_neg hxab, if_neg hxac, if_neg hxad, if_neg hxae, if_neg hxaf]
  exact EmulateGB_unimpl s opcode out h

/-- Helper: group G9 sends any opcode outside `implementedOps` to the
default `unimplemented` case. -/
theorem EmulateG9_unimpl (s : State) (opcode : Nat) (out : List OutEvent)
    (h : opcode ∉ implementedOps) :
    EmulateG9 s opcode out = unimplemented out s := by
  by_cases hx90 : opcode = 144
  · exact absurd (by rw [hx90]; decide) h
  by_cases hx91 : opcode = 145
  · exact absurd (by rw [hx91]; decide) h
  by_cases hx92 : opcode = 146
  · exact absurd (by rw [hx92]; decide) h
  by_cases hx93 : opcode = 147
  · exact absurd (by rw [hx93]; decide) h
  by_cases hx94 : opcode = 148
  · exact absurd (by rw [hx94]; decide) h
  by_cases hx95 : opcode = 149
  · exact absurd (by rw [hx95]; decide) h
  by_cases hx96 : opcode = 150
  · exact absurd (by rw [hx96]; decide) h
  by_cases hx97 : opcode = 151
  · exact absurd (by rw [hx97]; decide) h
  by_cases hx98 : opcode = 152
  · exact absurd (by rw [hx98]; decide) h
  by_cases hx99 : opcode = 153
  · exact absurd (by rw [hx99]; decide) h
  by_cases hx9a : opcode = 154
  · exact absurd (by rw [hx9a]; decide) h
  by_cases hx9b : opcode = 155
  · exact absurd (by rw [hx9b]; decide) h
  by_cases hx9c : opcode = 156
  · exact absurd (by rw [hx9c]; decide) h
  by_cases hx9d : opcode = 157
  · exact absurd (by rw [hx9d]; decide) h
  by_cases hx9e : opcode = 158
  · exact absurd (by rw [hx9e]; decide) h
  by_cases hx9f : opcode = 159
  · exact absurd (by rw [hx9f]; decide) h
  unfold EmulateG9
  rw [if_neg hx90, if_neg hx91, if_neg hx92, if_neg hx93, if_neg hx94, if_neg hx95, if_neg hx96, if_neg hx97, if_neg hx98, if_neg hx99, if_neg hx9a, if_neg hx9b, if_neg hx9c, if_neg hx9d, if_neg hx9e, if_neg hx9f]
  exact EmulateGA_unimpl s opcode out h

/-- Helper: group G8 sends any opcode outside `implementedOps` to the
default `unimplemented` case. -/
theorem EmulateG8_unimpl (s : State) (opcode : Nat) (out : List OutEvent)
    (h : opcode ∉ implementedOps) :
    EmulateG8 s opcode out = unimplemented out s := by
  by_cases hx80 : opcode = 128
  · exact absurd (by rw [hx80]; decide) h
  by_cases hx81 : opcode = 129
  · exact absurd (by rw [hx81]; decide) h
  by_cases hx82 : opcode = 130
  · exact absurd (by rw [hx82]; decide) h
  by_cases hx83 : opcode = 131
  · exact absurd (by rw [hx83]; decide) h
  by_cases hx84 : opcode = 132
  · exact absurd (by rw [hx84]; decide) h
  by_cases hx85 : opcode = 133
  · exact absurd (by rw [hx85]; decide) h
  by_cases hx86 : opcode = 134
  · exact absurd (by rw [hx86]; decide) h
  by_cases hx87 : opcode = 135
  · exact absurd (by rw [hx87]; decide) h
  by_cases hx88 : opcode = 136
  · exact absurd (by rw [hx88]; decide) h
  by_cases hx89 : opcode = 137
  · exact absurd (by rw [hx89]; decide) h
  by_cases hx8a : opcode = 138
  · exact absurd (by rw [hx8a]; decide) h
  by_cases hx8b : opcode = 139
  · exact absurd (by rw [hx8b]; decide) h
  by_cases hx8c : opcode = 140
  · exact absurd (by rw [hx8c]; decide) h
  by_cases hx8d : opcode = 141
  · exact absurd (by rw [hx8d]; decide) h
  by_cases hx8e : opcode = 142
  · exact absurd (by rw [hx8e]; decide) h
  by_cases hx8f : opcode = 143
  · exact absurd (by rw [hx8f]; decide) h
  unfold EmulateG8
  rw [if_neg hx80, if_neg hx81, if_neg hx82, if_neg hx83, if_neg hx84, if_neg hx85, if_neg hx86, if_neg hx87, if_neg hx88, if_neg hx89, if_neg hx8a, if_neg hx8b, if_neg hx8c, if_neg hx8d, if_neg hx8e, if_neg hx8f]
  exact EmulateG9_unimpl s opcode out h

/-- Helper: group G7 sends any opcode outside `implementedOps` to the
default `unimplemented` case. -/
theorem EmulateG7_unimpl (s : State) (opcode : Nat) (out : List OutEvent)
    (h : opcode ∉ implementedOps) :
    EmulateG7 s opcode out = unimplemented out s := by
  by_cases hx70 : opcode = 112
  · exact absurd (by rw [hx70]; decide) h
  by_cases hx71 : opcode = 113
  · exact absurd (by rw [hx71]; decide) h
  by_cases hx72 : opcode = 114
  · exact absurd (by rw [hx72]; decide) h
  by_cases hx73 : opcode = 115
  · exact absurd (by rw [hx73]; decide) h
  by_cases hx74 : opcode = 116
  · exact absurd (by rw [hx74]; decide) h
  by_cases hx75 : opcode = 117
  · exact absurd (by rw [hx75]; decide) h
  by_cases hx76 : opcode = 118
  · exact absurd (by rw [hx76]; decide) h
  by_cases hx77 : opcode = 119
  · exact absurd (by rw [hx77]; decide) h
  by_cases hx78 : opcode = 120
  · exact absurd (by rw [hx78]; decide) h
  by_cases hx79 : opcode = 121
  · exact absurd (by rw [hx79]; decide) h
  by_cases hx7a : opcode = 122
  · exact absurd (by rw [hx7a]; decide) h
  by_cases hx7b : opcode = 123
  · exact absurd (by rw [hx7b]; decide) h
  by_cases hx7c : opcode = 124
  · exact absurd (by rw [hx7c]; decide) h
  by_cases hx7d : opcode = 125
  · exact absurd (by rw [hx7d]; decide) h
  by_cases hx7e : opcode = 126
  · exact absurd (by rw [hx7e]; decide) h
  by_cases hx7f : opcode = 127
  · exact absurd (by rw [hx7f]; decide) h
  unfold EmulateG7
  rw [if_neg hx70, if_neg hx71, if_neg hx72, if_neg hx73, if_neg hx74, if_neg hx75, if_neg hx76, if_neg hx77, if_neg hx78, if_neg hx79, if_neg hx7a, if_neg hx7b, if_neg hx7c, if_neg hx7d, if_neg hx7e, if_neg hx7f]
  exact EmulateG8_unimpl s opcode out h

/-- Helper: group G6 sends any opcode outside `implementedOps` to the
default `unimplemented` case. -/
theorem EmulateG6_unimpl (s : State) (opcode : Nat) (out : List OutEvent)
    (h : opcode ∉ implementedOps) :
    EmulateG6 s opcode out = unimplemented out s := by
  by_cases hx60 : opcode = 96
  · exact absurd (by rw [hx60]; decide) h
  by_cases hx61 : opcode = 97
  · exact absurd (by rw [hx61]; decide) h
  by_cases hx62 : opcode = 98
  · exact absurd (by rw [hx62]; decide) h
  by_cases hx63 : opcode = 99
  · exact absurd (by rw [hx63]; decide) h
  by_cases hx64 : opcode = 100
  · exact absurd (by rw [hx64]; decide) h
  by_cases hx65 : opcode = 101
  · exact absurd (by rw [hx65]; decide) h
  by_cases hx66 : opcode = 102
  · exact absurd (by rw [hx66]; decide) h
  by_cases hx67 : opcode = 103
  · exact absurd (by rw [hx67]; decide) h
  by_cases hx68 : opcode = 104
  · exact absurd (by rw [hx68]; decide) h
  by_cases hx69 : opcode = 105
  · exact absurd (by rw [hx69]; decide) h
  by_cases hx6a : opcode = 106
  · exact absurd (by rw [hx6a]; decide) h
  by_cases hx6b : opcode = 107
  · exact absurd (by rw [hx6b]; decide) h
  by_cases hx6c : opcode = 108
  · exact absurd (by rw [hx6c]; decide) h
  by_cases hx6d : opcode = 109
  · exact absurd (by rw [hx6d]; decide) h
  by_cases hx6e : opcode = 110
  · exact absurd (by rw [hx6e]; decide) h
  by_cases hx6f : opcode = 111
  · exact absurd (by rw [hx6f]; decide) h
  unfold EmulateG6
  rw [if_neg hx60, if_neg hx61, if_neg hx62, if_neg hx63, if_neg hx64, if_neg hx65, if_neg hx66, if_neg hx67, if_neg hx68, if_neg hx69, if_neg hx6a, if_neg hx6b, if_neg hx6c, if_neg hx6d, if_neg hx6e, if_neg hx6f]
  exact EmulateG7_unimpl s opcode out h

/-- Helper: group G5 sends any opcode outside `implementedOps` to the
default `unimplemented` case. -/
theorem EmulateG5_unimpl (s : State) (opcode : Nat) (out : List OutEvent)
    (h : opcode ∉ implementedOps) :
    EmulateG5 s opcode out = unimplemented out s := by
  by_cases hx50 : opcode = 80
  · exact absurd (by rw [hx50]; decide) h
  by_cases hx51 : opcode = 81
  · exact absurd (by rw [hx51]; decide) h
  by_cases hx52 : opcode = 82
  · exact absurd (by rw [hx52]; decide) h
  by_cases hx53 : opcode = 83
  · exact absurd (by rw [hx53]; decide) h
  by_cases hx54 : opcode = 84
  · exact absurd (by rw [hx54]; decide) h
  by_cases hx55 : opcode = 85
  · exact absurd (by rw [hx55]; decide) h
  by_cases hx56 : opcode = 86
  · exact absurd (by rw [hx56]; decide) h
  by_cases hx57 : opcode = 87
  · exact absurd (by rw [hx57]; decide) h
  by_cases hx58 : opcode = 88
  · exact absurd (by rw [hx58]; decide) h
  by_cases hx59 : opcode = 89
  · exact absurd (by rw [hx59]; decide) h
  by_cases hx5a : opcode = 90
  · exact absurd (by rw [hx5a]; decide) h
  by_cases hx5b : opcode = 91
  · exact absurd (by rw [hx5b]; decide) h
  by_cases hx5c : opcode = 92
  · exact absurd (by rw [hx5c]; decide) h
  by_cases hx5d : opcode = 93
  · exact absurd (by rw [hx5d]; decide) h
  by_cases hx5e : opcode = 94
  · exact absurd (by rw [hx5e]; decide) h
  by_cases hx5f : opcode = 95
  · exact absurd (by rw [hx5f]; decide) h
  unfold EmulateG5
  rw [if_neg hx50, if_neg hx51, if_neg hx52, if_neg hx53, if_neg hx54, if_neg hx55, if_neg hx56, if_neg hx57, if_neg hx58, if_neg hx59, if_neg hx5a, if_neg hx5b, if_neg hx5c, if_neg hx5d, if_neg hx5e, if_neg hx5f]
  exact EmulateG6_unimpl s opcode out h

/-- Helper: group G4 sends any opcode outside `implementedOps` to the
default `unimplemented` case. -/
theorem EmulateG4_unimpl (s : State) (opcode : Nat) (out : List OutEvent)
    (h : opcode ∉ implementedOps) :
    EmulateG4 s opcode out = unimplemented out s := by
  by_cases hx40 : opcode = 64
  · exact absurd (by rw [hx40]; decide) h
  by_cases hx41 : opcode = 65
  · exact absurd (by rw [hx41]; decide) h
  by_cases hx42 : opcode = 66
  · exact absurd (by rw [hx42]; decide) h
  by_cases hx43 : opcode = 67
  · exact absurd (by rw [hx43]; decide) h
  by_cases hx44 : opcode = 68
  · exact absurd (by rw [hx44]; decide) h
  by_cases hx45 : opcode = 69
  · exact absurd (by rw [hx45]; decide) h
  by_cases hx46 : opcode = 70
  · exact absurd (by rw [hx46]; decide) h
  by_cases hx47 : opcode = 71
  · exact absurd (by rw [hx47]; decide) h
  by_cases hx48 : opcode = 72
  · exact absurd (by rw [hx48]; decide) h
  by_cases hx49 : opcode = 73
  · exact absurd (by rw [hx49]; decide) h
  by_cases hx4a : opcode = 74
  · exact absurd (by rw [hx4a]; decide) h
  by_cases hx4b : opcode = 75
  · exact absurd (by rw [hx4b]; decide) h
  by_cases hx4c : opcode = 76
  · exact absurd (by rw [hx4c]; decide) h
  by_cases hx4d : opcode = 77
  · exact absurd (by rw [hx4d]; decide) h
  by_cases hx4e : opcode = 78
  · exact absurd (by rw [hx4e]; decide) h
  by_cases hx4f : opcode = 79
  · exact absurd (by rw [hx4f]; decide) h
  unfold EmulateG4
  rw [if_neg hx40, if_neg hx41, if_neg hx42, if_neg hx43, if_neg hx44, if_neg hx45, if_neg hx46, if_neg hx47, if_neg hx48, if_neg hx49, if_neg hx4a, if_neg hx4b, if_neg hx4c, if_neg hx4d, if_neg hx4e, if_neg hx4f]
  exact EmulateG5_unimpl s opcode out h

/-- Helper: group G3 sends any opcode outside `implementedOps` to the
default `unimplemented` case. -/
theorem EmulateG3_unimpl (s : State) (opcode : Nat) (out : List OutEvent)
    (h : opcode ∉ implementedOps) :
    EmulateG3 s opcode out = unimplemented out s := by
  by_cases hx30 : opcode = 48
  · subst hx30; rfl
  by_cases hx31 : opcode = 49
  · exact absurd (by rw [hx31]; decide) h
  by_cases hx32 : opcode = 50
  · exact absurd (by rw [hx32]; decide) h
  by_cases hx33 : opcode = 51
  · exact absurd (by rw [hx33]; decide) h
  by_cases hx34 : opcode = 52
  · exact absurd (by rw [hx34]; decide) h
  by_cases hx35 : opcode = 53
  · exact absurd (by rw [hx35]; decide) h
  by_cases hx36 : opcode = 54
  · exact absurd (by rw [hx36]; decide) h
  by_cases hx37 : opcode = 55
  · exact absurd (by rw [hx37]; decide) h
  by_cases hx38 : opcode = 56
  · subst hx38; rfl
  by_cases hx39 : opcode = 57
  · exact absurd (by rw [hx39]; decide) h
  by_cases hx3a : opcode = 58
  · exact absurd (by rw [hx3a]; decide) h
  by_cases hx3b : opcode = 59
  · exact absurd (by rw [hx3b]; decide) h
  by_cases hx3c : opcode = 60
  · exact absurd (by rw [hx3c]; decide) h
  by_cases hx3d : opcode = 61
  · exact absurd (by rw [hx3d]; decide) h
  by_cases hx3f : opcode = 63
  · exact absurd (by rw [hx3f]; decide) h
  unfold EmulateG3
  rw [if_neg hx30, if_neg hx31, if_neg hx32, if_neg hx33, if_neg hx34, if_neg hx35, if_neg hx36, if_neg hx37, if_neg hx38, if_neg hx39, if_neg hx3a, if_neg hx3b, if_neg hx3c, if_neg hx3d, if_neg hx3f]
  exact EmulateG4_unimpl s opcode out h

/-- Helper: group G2 sends any opcode outside `implementedOps` to the
default `unimplemented` case. -/
theorem EmulateG2_unimpl (s : State) (opcode : Nat) (out : List OutEvent)
    (h : opcode ∉ implementedOps) :
    EmulateG2 s opcode out = unimplemented out s := by
  by_cases hx20 : opcode = 32
  · subst hx20; rfl
  by_cases hx21 : opcode = 33
  · exact absurd (by rw [hx21]; decide) h
  by_cases hx22 : opcode = 34
  · exact absurd (by rw [hx22]; decide) h
  by_cases hx23 : opcode = 35
  · exact absurd (by rw [hx23]; decide) h
  by_cases hx24 : opcode = 36
  · exact absurd (by rw [hx24]; decide) h
  by_cases hx25 : opcode = 37
  · exact absurd (by rw [hx25]; decide) h
  by_cases hx26 : opcode = 38
  · exact absurd (by rw [hx26]; decide) h
  by_cases hx27 : opcode = 39
  · subst hx27; rfl
  by_cases hx28 : opcode = 40
  · subst hx28; rfl
  by_cases hx29 : opcode = 41
  · exact absurd (by rw [hx29]; decide) h
  by_cases hx2a : opcode = 42
  · exact absurd (by rw [hx2a]; decide) h
  by_cases hx2b : opcode = 43
  · exact absurd (by rw [hx2b]; decide) h
  by_cases hx2c : opcode = 44
  · exact absurd (by rw [hx2c]; decide) h
  by_cases hx2d : opcode = 45
  · exact absurd (by rw [hx2d]; decide) h
  by_cases hx2f : opcode = 47
  · exact absurd (by rw [hx2f]; decide) h
  unfold EmulateG2
  rw [if_neg hx20, if_neg hx21, if_neg hx22, if_neg hx23, if_neg hx24, if_neg hx25, if_neg hx26, if_neg hx27, if_neg hx28, if_neg hx29, if_neg hx2a, if_neg hx2b, if_neg hx2c, if_neg hx2d, if_neg hx2f]
  exact EmulateG3_unimpl s opcode out h

/-- Helper: group G1 sends any opcode outside `implementedOps` to the
default `unimplemented` case. -/
theorem EmulateG1_unimpl (s : State) (opcode : Nat) (out : List OutEvent)
    (h : opcode ∉ implementedOps) :
    EmulateG1 s opcode out = unimplemented out s := by
  by_cases hx10 : opcode = 16
  · subst hx10; rfl
  by_cases hx11 : opcode = 17
  · exact absurd (by rw [hx11]; decide) h
  by_cases hx12 : opcode = 18
  · exact absurd (by rw [hx12]; decide) h
  by_cases hx13 : opcode = 19
  · exact absurd (by rw [hx13]; decide) h
  by_cases hx14 : opcode = 20
  · exact absurd (by rw [hx14]; decide) h
  by_cases hx15 : opcode = 21
  · exact absurd (by rw [hx15]; decide) h
  by_cases hx16 : opcode = 22
  · exact absurd (by rw [hx16]; decide) h
  by_cases hx17 : opcode = 23
  · exact absurd (by rw [hx17]; decide) h
  by_cases hx18 : opcode = 24
  · subst hx18; rfl
  by_cases hx19 : opcode = 25
  · exact absurd (by rw [hx19]; decide) h
  by_cases hx1a : opcode = 26
  · exact absurd (by rw [hx1a]; decide) h
  by_cases hx1b : opcode = 27
  · exact absurd (by rw [hx1b]; decide) h
  by_cases hx1c : opcode = 28
  · exact absurd (by rw [hx1c]; decide) h
  by_cases hx1d : opcode = 29
  · exact absurd (by rw [hx1d]; decide) h
  by_cases hx1e : opcode = 30
  · exact absurd (by rw [hx1e]; decide) h
  by_cases hx1f : opcode = 31
  · exact absurd (by rw [hx1f]; decide) h
  unfold EmulateG1
  rw [if_neg hx10, if_neg hx11, if_neg hx12, if_neg hx13, if_neg hx14, if_neg hx15, if_neg hx16, if_neg hx17, if_neg hx18, if_neg hx19, if_neg hx1a, if_neg hx1b, if_neg hx1c, if_neg hx1d, if_neg hx1e, if_neg hx1f]
  exact EmulateG2_unimpl s opcode out h

/-- Helper: group G0 sends any opcode outside `implementedOps` to the
default `unimplemented` case. -/
theorem EmulateG0_unimpl (s : State) (opcode : Nat) (out : List OutEvent)
    (h : opcode ∉ implementedOps) :
    EmulateG0 s opcode out = unimplemented out s := by
  by_cases hx00 : opcode = 0
  · exact absurd (by rw [hx00]; decide) h
  by_cases hx01 : opcode = 1
  · exact absurd (by rw [hx01]; decide) h
  by_cases hx02 : opcode = 2
  · exact absurd (by rw [hx02]; decide) h
  by_cases hx03 : opcode = 3
  · exact absurd (by rw [hx03]; decide) h
  by_cases hx04 : opcode = 4
  · exact absurd (by rw [hx04]; decide) h
  by_cases hx05 : opcode = 5
  · exact absurd (by rw [hx05]; decide) h
  by_cases hx06 : opcode = 6
  · exact absurd (by rw [hx06]; decide) h
  by_cases hx07 : opcode = 7
  · exact absurd (by rw [hx07]; decide) h
  by_cases hx08 : opcode = 8
  · subst hx08; rfl
  by_cases hx09 : opcode = 9
  · exact absurd (by rw [hx09]; decide) h
  by_cases hx0a : opcode = 10
  · exact absurd (by rw [hx0a]; decide) h
  by_cases hx0b : opcode = 11
  · exact absurd (by rw [hx0b]; decide) h
  by_cases hx0c : opcode = 12
  · exact absurd (by rw [hx0c]; decide) h
  by_cases hx0d : opcode = 13
  · exact absurd (by rw [hx0d]; decide) h
  by_cases hx0e : opcode = 14
  · exact absurd (by rw [hx0e]; decide) h
  by_cases hx0f : opcode = 15
  · exact absurd (by rw [hx0f]; decide) h
  unfold EmulateG0
  rw [if_neg hx00, if_neg hx01, if_neg hx02, if_neg hx03, if_neg hx04, if_neg hx05, if_neg hx06, if_neg hx07, if_neg hx08, if_neg hx09, if_neg hx0a, if_neg hx0b, if_neg hx0c, if_neg hx0d, if_neg hx0e, if_neg hx0f]
  exact EmulateG1_unimpl s opcode out h

/-- Helper: group GF never writes the interrupt-enable byte on a
normally-continuing step. -/
theorem EmulateGF_ok_enable (s : State) (opcode : Nat) (out : List OutEvent)
    (s' : State) (h : (EmulateGF s opcode out).2 = Outcome.ok s') :
    s'.enable = s.enable := by
  unfold EmulateGF at h
  by_cases hxf1 : opcode = 241
  · subst hxf1
    injection h with hC; subst hC; rfl
  by_cases hxf2 : opcode = 242
  · subst hxf2
    revert h; cases s.cond.s <;> intro h <;>
      (injection h with hC; subst hC; rfl)
  by_cases hxf5 : opcode = 245
  · subst hxf5
    injection h with hC; subst hC; unfold push; rfl
  by_cases hxfa : opcode = 250
  · subst hxfa
    revert h; cases s.cond.s <;> intro h <;>
      (injection h with hC; subst hC; rfl)
  rw [if_neg hxf1, if_neg hxf2, if_neg hxf5, if_neg hxfa] at h
  injection h

/-- Helper: group GE never writes the interrupt-enable byte on a
normally-continuing step. -/
theorem EmulateGE_ok_enable (s : State) (opcode : Nat) (out : List OutEvent)
    (s' : State) (h : (EmulateGE s opcode out).2 = Outcome.ok s') :
    s'.enable = s.enable := by
  unfold EmulateGE at h
  by_cases hxe1 : opcode = 225
  · subst hxe1
    injection h with hC; subst hC; rfl
  by_cases hxe2 : opcode = 226
  · subst hxe2
    revert h; cases s.cond.p <;> intro h <;>
      (injection h with hC; subst hC; rfl)
  by_cases hxe5 : opcode = 229
  · subst hxe5
    injection h with hC; subst hC; unfold push; rfl
  by_cases hxea : opcode = 234
  · subst hxea
    revert h; cases s.cond.p <;> intro h <;>
      (injection h with hC; subst hC; rfl)
  rw [if_neg hxe1, if_neg hxe2, if_neg hxe5, if_neg hxea] at h
  exact EmulateGF_ok_enable s opcode out s' h

/-- Helper: group GD never writes the interrupt-enable byte on a
normally-continuing step. -/
theorem EmulateGD_ok_enable (s : State) (opcode : Nat) (out : List OutEvent)
    (s' : State) (h : (EmulateGD s opcode out).2 = Outcome.ok s') :
    s'.enable = s.enable := by
  unfold EmulateGD at h
  by_cases hxd1 : opcode = 209
  · subst hxd1
    injection h with hC; subst hC; rfl
  by_cases hxd2 : opcode = 210
  · subst hxd2
    revert h; cases s.cond.cy <;> intro h <;>
      (injection h with hC; subst hC; rfl)
  by_cases hxd5 : opcode = 213
  · subst hxd5
    injection h with hC; subst hC; unfold push; rfl
  by_cases hxda : opcode = 218
  · subst hxda
    revert h; cases s.cond.cy <;> intro h <;>
      (injection h with hC; subst hC; rfl)
  rw [if_neg hxd1, if_neg hxd2, if_neg hxd5, if_neg hxda] at h
  exact EmulateGE_ok_enable s opcode out s' h

/-- Helper: group GC never writes the interrupt-enable byte on a
normally-continuing step. -/
theorem EmulateGC_ok_enable (s : State) (opcode : Nat) (out : List OutEvent)
    (s' : State) (h : (EmulateGC s opcode out).2 = Outcome.ok s') :
    s'.enable = s.enable := by
  unfold EmulateGC at h
  by_cases hxc1 : opcode = 193
  · subst hxc1
    injection h with hC; subst hC; rfl
  by_cases hxc2 : opcode = 194
  · subst hxc2
    revert h; cases s.cond.z <;> intro h <;>
      (injection h with hC; subst hC; rfl)
  by_cases hxc3 : opcode = 195
  · subst hxc3
    injection h with hC; subst hC; rfl
  by_cases hxc5 : opcode = 197
  · subst hxc5
    injection h with hC; subst hC; unfold push; rfl
  by_cases hxc6 : opcode = 198
  · subst hxc6
    injection h with hC; subst hC; rfl
  by_cases hxca : opcode = 202
  · subst hxca
    revert h; cases s.cond.z <;> intro h <;>
      (injection h with hC; subst hC; rfl)
  rw [if_neg hxc1, if_neg hxc2, if_neg hxc3, if_neg hxc5, if_neg hxc6, if_neg hxca] at h
  exact EmulateGD_ok_enable s opcode out s' h

/-- Helper: group GB never writes the interrupt-enable byte on a
normally-continuing step. -/
theorem EmulateGB_ok_enable (s : State) (opcode : Nat) (out : List OutEvent)
    (s' : State) (h : (EmulateGB s opcode out).2 = Outcome.ok s') :
    s'.enable = s.enable := by
  unfold EmulateGB at h
  by_cases hxb0 : opcode = 176
  · subst hxb0
    injection h with hC; subst hC; rfl
  by_cases hxb1 : opcode = 177
  · subst hxb1
    injection h with hC; subst hC; rfl
  by_cases hxb2 : opcode = 178
  · subst hxb2
    injection h with hC; subst hC; rfl
  by_cases hxb3 : opcode = 179
  · subst hxb3
    injection h with hC; subst hC; rfl
  by_cases hxb4 : opcode = 180
  · subst hxb4
    injection h with hC; subst hC; rfl
  by_cases hxb5 : opcode = 181
  · subst hxb5
    injection h with hC; subst hC; rfl
  by_cases hxb6 : opcode = 182
  · subst hxb6
    injection h with hC; subst hC; rfl
  by_cases hxb7 : opcode = 183
  · subst hxb7
    injection h with hC; subst hC; rfl
  by_cases hxb8 : opcode = 184
  · subst hxb8
    injection h with hC; subst hC; rfl
  by_cases hxb9 : opcode = 185
  · subst hxb9
    injection h with hC; subst hC; rfl
  by_cases hxba : opcode = 186
  · subst hxba
    injection h with hC; subst hC; rfl
  by_cases hxbb : opcode = 187
  · subst hxbb
    injection h with hC; subst hC; rfl
  by_cases hxbc : opcode = 188
  · subst hxbc
    injection h with hC; subst hC; rfl
  by_cases hxbd : opcode = 189
  · subst hxbd
    injection h with hC; subst hC; rfl
  by_cases hxbe : opcode = 190
  · subst hxbe
    injection h with hC; subst hC; rfl
  by_cases hxbf : opcode = 191
  · subst hxbf
    injection h with hC; subst hC; rfl
  rw [if_neg hxb0, if_neg hxb1, if_neg hxb2, if_neg hxb3, if_neg hxb4, if_neg hxb5, if_neg hxb6, if_neg hxb7, if_neg hxb8, if_neg hxb9, if_neg hxba, if_neg hxbb, if_neg hxbc, if_neg hxbd, if_neg hxbe, if_neg hxbf] at h
  exact EmulateGC_ok_enable s opcode out s' h

/-- Helper: group GA never writes the interrupt-enable byte on a
normally-continuing step. -/
theorem EmulateGA_ok_enable (s : State) (opcode : Nat) (out : List OutEvent)
    (s' : State) (h : (EmulateGA s opcode out).2 = Outcome.ok s') :
    s'.enable = s.enable := by
  unfold EmulateGA at h
  by_cases hxa0 : opcode = 160
  · subst hxa0
    injection h with hC; subst hC; rfl
  by_cases hxa1 : opcode = 161
  · subst hxa1
    injection h with hC; subst hC; rfl
  by_cases hxa2 : opcode = 162
  · subst hxa2
    injection h with hC; subst hC; rfl
  by_cases hxa3 : opcode = 163
  · subst hxa3
    injection h with hC; subst hC; rfl
  by_cases hxa4 : opcode = 164
  · subst hxa4
    injection h with hC; subst hC; rfl
  by_cases hxa5 : opcode = 165
  · subst hxa5
    injection h with hC; subst hC; rfl
  by_cases hxa6 : opcode = 166
  · subst hxa6
    injection h with hC; subst hC; rfl
  by_cases hxa7 : opcode = 167
  · subst hxa7
    injection h with hC; subst hC; rfl
  by_cases hxa8 : opcode = 168
  · subst hxa8
    injection h with hC; subst hC; rfl
  by_cases hxa9 : opcode = 169
  · subst hxa9
    injection h with hC; subst hC; rfl
  by_cases hxaa : opcode = 170
  · subst hxaa
    injection h with hC; subst hC; rfl
  by_cases hxab : opcode = 171
  · subst hxab
    injection h with hC; subst hC; rfl
  by_cases hxac : opcode = 172
  · subst hxac
    injection h with hC; subst hC; rfl
  by_cases hxad : opcode = 173
  · subst hxad
    injection h with hC; subst hC; rfl
  by_cases hxae : opcode = 174
  · subst hxae
    injection h with hC; subst hC; rfl
  by_cases hxaf : opcode = 175
  · subst hxaf
    injection h with hC; subst hC; rfl
  rw [if_neg hxa0, if_neg hxa1, if_neg hxa2, if_neg hxa3, if_neg hxa4, if_neg hxa5, if_neg hxa6, if_neg hxa7, if_neg hxa8, if_neg hxa9, if_neg hxaa, if_neg hxab, if_neg hxac, if_neg hxad, if_neg hxae, if_neg hxaf] at h
  exact EmulateGB_ok_enable s opcode out s' h

/-- Helper: group G9 never writes the interrupt-enable byte on a
normally-continuing step. -/
theorem EmulateG9_ok_enable (s : State) (opcode : Nat) (out : List OutEvent)
    (s' : State) (h : (EmulateG9 s opcode out).2 = Outcome.ok s') :
    s'.enable = s.enable := by
  unfold EmulateG9 at h
  by_cases hx90 : opcode = 144
  · subst hx90
    injection h with hC; subst hC; rfl
  by_cases hx91 : opcode = 145
  · subst hx91
    injection h with hC; subst hC; rfl
  by_cases hx92 : opcode = 146
  · subst hx92
    injection h with hC; subst hC; rfl
  by_cases hx93 : opcode = 147
  · subst hx93
    injection h with hC; subst hC; rfl
  by_cases hx94 : opcode = 148
  · subst hx94
    injection h with hC; subst hC; rfl
  by_cases hx95 : opcode = 149
  · subst hx95
    injection h with hC; subst hC; rfl
  by_cases hx96 : opcode = 150
  · subst hx96
    injection h with hC; subst hC; rfl
  by_cases hx97 : opcode = 151
  · subst hx97
    injection h with hC; subst hC; rfl
  by_cases hx98 : opcode = 152
  · subst hx98
    injection h with hC; subst hC; rfl
  by_cases hx99 : opcode = 153
  · subst hx99
    injection h with hC; subst hC; rfl
  by_cases hx9a : opcode = 154
  · subst hx9a
    injection h with hC; subst hC; rfl
  by_cases hx9b : opcode = 155
  · subst hx9b
    injection h with hC; subst hC; rfl
  by_cases hx9c : opcode = 156
  · subst hx9c
    injection h with hC; subst hC; rfl
  by_cases hx9d : opcode = 157
  · subst hx9d
    injection h with hC; subst hC; rfl
  by_cases hx9e : opcode = 158
  · subst hx9e
    injection h with hC; subst hC; rfl
  by_cases hx9f : opcode = 159
  · subst hx9f
    injection h with hC; subst hC; rfl
  rw [if_neg hx90, if_neg hx91, if_neg hx92, if_neg hx93, if_neg hx94, if_neg hx95, if_neg hx96, if_neg hx97, if_neg hx98, if_neg hx99, if_neg hx9a, if_neg hx9b, if_neg hx9c, if_neg hx9d, if_neg hx9e, if_neg hx9f] at h
  exact EmulateGA_ok_enable s opcode out s' h

/-- Helper: group G8 never writes the interrupt-enable byte on a
normally-continuing step. -/
theorem EmulateG8_ok_enable (s : State) (opcode : Nat) (out : List OutEvent)
    (s' : State) (h : (EmulateG8 s opcode out).2 = Outcome.ok s') :
    s'.enable = s.enable := by
  unfold EmulateG8 at h
  by_cases hx80 : opcode = 128
  · subst hx80
    injection h with hC; subst hC; rfl
  by_cases hx81 : opcode = 129
  · subst hx81
    injection h with hC; subst hC; rfl
  by_cases hx82 : opcode = 130
  · subst hx82
    injection h with hC; subst hC; rfl
  by_cases hx83 : opcode = 131
  · subst hx83
    injection h with hC; subst hC; rfl
  by_cases hx84 : opcode = 132
  · subst hx84
    injection h with hC; subst hC; rfl
  by_cases hx85 : opcode = 133
  · subst hx85
    injection h with hC; subst hC; rfl
  by_cases hx86 : opcode = 134
  · subst hx86
    injection h with hC; subst hC; rfl
  by_cases hx87 : opcode = 135
  · subst hx87
    injection h with hC; subst hC; rfl
  by_cases hx88 : opcode = 136
  · subst hx88
    injection h with hC; subst hC; rfl
  by_cases hx89 : opcode = 137
  · subst hx89
    injection h with hC; subst hC; rfl
  by_cases hx8a : opcode = 138
  · subst hx8a
    injection h with hC; subst hC; rfl
  by_cases hx8b : opcode = 139
  · subst hx8b
    injection h with hC; subst hC; rfl
  by_cases hx8c : opcode = 140
  · subst hx8c
    injection h with hC; subst hC; rfl
  by_cases hx8d : opcode = 141
  · subst hx8d
    injection h with hC; subst hC; rfl
  by_cases hx8e : opcode = 142
  · subst hx8e
    injection h with hC; subst hC; rfl
  by_cases hx8f : opcode = 143
  · subst hx8f
    injection h with hC; subst hC; rfl
  rw [if_neg hx80, if_neg hx81, if_neg hx82, if_neg hx83, if_neg hx84, if_neg hx85, if_neg hx86, if_neg hx87, if_neg hx88, if_neg hx89, if_neg hx8a, if_neg hx8b, if_neg hx8c, if_neg hx8d, if_neg hx8e, if_neg hx8f] at h
  exact EmulateG9_ok_enable s opcode out s' h

/-- Helper: group G7 never writes the interrupt-enable byte on a
normally-continuing step. -/
theorem EmulateG7_ok_enable (s : State) (opcode : Nat) (out : List OutEvent)
    (s' : State) (h : (EmulateG7 s opcode out).2 = Outcome.ok s') :
    s'.enable = s.enable := by
  unfold EmulateG7 at h
  by_cases hx70 : opcode = 112
  · subst hx70
    injection h with hC; subst hC; rfl
  by_cases hx71 : opcode = 113
  · subst hx71
    injection h with hC; subst hC; rfl
  by_cases hx72 : opcode = 114
  · subst hx72
    injection h with hC; subst hC; rfl
  by_cases hx73 : opcode = 115
  · subst hx73
    injection h with hC; subst hC; rfl
  by_cases hx74 : opcode = 116
  · subst hx74
    injection h with hC; subst hC; rfl
  by_cases hx75 : opcode = 117
  · subst hx75
    injection h with hC; subst hC; rfl
  by_cases hx76 : opcode = 118
  · subst hx76
    injection h
  by_cases hx77 : opcode = 119
  · subst hx77
    injection h with hC; subst hC; rfl
  by_cases hx78 : opcode = 120
  · subst hx78
    injection h with hC; subst hC; rfl
  by_cases hx79 : opcode = 121
  · subst hx79
    injection h with hC; subst hC; rfl
  by_cases hx7a : opcode = 122
  · subst hx7a
    injection h with hC; subst hC; rfl
  by_cases hx7b : opcode = 123
  · subst hx7b
    injection h with hC; subst hC; rfl
  by_cases hx7c : opcode = 124
  · subst hx7c
    injection h with hC; subst hC; rfl
  by_cases hx7d : opcode = 125
  · subst hx7d
    injection h with hC; subst hC; rfl
  by_cases hx7e : opcode = 126
  · subst hx7e
    injection h with hC; subst hC; rfl
  by_cases hx7f : opcode = 127
  · subst hx7f
    injection h with hC; subst hC; rfl
  rw [if_neg hx70, if_neg hx71, if_neg hx72, if_neg hx73, if_neg hx74, if_neg hx75, if_neg hx76, if_neg hx77, if_neg hx78, if_neg hx79, if_neg hx7a, if_neg hx7b, if_neg hx7c, if_neg hx7d, if_neg hx7e, if_neg hx7f] at h
  exact EmulateG8_ok_enable s opcode out s' h

/-- Helper: group G6 never writes the interrupt-enable byte on a
normally-continuing step. -/
theorem EmulateG6_ok_enable (s : State) (opcode : Nat) (out : List OutEvent)
    (s' : State) (h : (EmulateG6 s opcode out).2 = Outcome.ok s') :
    s'.enable = s.enable := by
  unfold EmulateG6 at h
  by_cases hx60 : opcode = 96
  · subst hx60
    injection h with hC; subst hC; rfl
  by_cases hx61 : opcode = 97
  · subst hx61
    injection h with hC; subst hC; rfl
  by_cases hx62 : opcode = 98
  · subst hx62
    injection h with hC; subst hC; rfl
  by_cases hx63 : opcode = 99
  · subst hx63
    injection h with hC; subst hC; rfl
  by_cases hx64 : opcode = 100
  · subst hx64
    injection h with hC; subst hC; rfl
  by_cases hx65 : opcode = 101
  · subst hx65
    injection h with hC; subst hC; rfl
  by_cases hx66 : opcode = 102
  · subst hx66
    injection h with hC; subst hC; rfl
  by_cases hx67 : opcode = 103
  · subst hx67
    injection h with hC; subst hC; rfl
  by_cases hx68 : opcode = 104
  · subst hx68
    injection h with hC; subst hC; rfl
  by_cases hx69 : opcode = 105
  · subst hx69
    injection h with hC; subst hC; rfl
  by_cases hx6a : opcode = 106
  · subst hx6a
    injection h with hC; subst hC; rfl
  by_cases hx6b : opcode = 107
  · subst hx6b
    injection h with hC; subst hC; rfl
  by_cases hx6c : opcode = 108
  · subst hx6c
    injection h with hC; subst hC; rfl
  by_cases hx6d : opcode = 109
  · subst hx6d
    injection h with hC; subst hC; rfl
  by_cases hx6e : opcode = 110
  · subst hx6e
    injection h with hC; subst hC; rfl
  by_cases hx6f : opcode = 111
  · subst hx6f
    injection h with hC; subst hC; rfl
  rw [if_neg hx60, if_neg hx61, if_neg hx62, if_neg hx63, if_neg hx64, if_neg hx65, if_neg hx66, if_neg hx67, if_neg hx68, if_neg hx69, if_neg hx6a, if_neg hx6b, if_neg hx6c, if_neg hx6d, if_neg hx6e, if_neg hx6f] at h
  exact EmulateG7_ok_enable s opcode out s' h

/-- Helper: group G5 never writes the interrupt-enable byte on a
normally-continuing step. -/
theorem EmulateG5_ok_enable (s : State) (opcode : Nat) (out : List OutEvent)
    (s' : State) (h : (EmulateG5 s opcode out).2 = Outcome.ok s') :
    s'.enable = s.enable := by
  unfold EmulateG5 at h
  by_cases hx50 : opcode = 80
  · subst hx50
    injection h with hC; subst hC; rfl
  by_cases hx51 : opcode = 81
  · subst hx51
    injection h with hC; subst hC; rfl
  by_cases hx52 : opcode = 82
  · subst hx52
    injection h with hC; subst hC; rfl
  by_cases hx53 : opcode = 83
  · subst hx53
    injection h with hC; subst hC; rfl
  by_cases hx54 : opcode = 84
  · subst hx54
    injection h with hC; subst hC; rfl
  by_cases hx55 : opcode = 85
  · subst hx55
    injection h with hC; subst hC; rfl
  by_cases hx56 : opcode = 86
  · subst hx56
    injection h with hC; subst hC; rfl
  by_cases hx57 : opcode = 87
  · subst hx57
    injection h with hC; subst hC; rfl
  by_cases hx58 : opcode = 88
  · subst hx58
    injection h with hC; subst hC; rfl
  by_cases hx59 : opcode = 89
  · subst hx59
    injection h with hC; subst hC; rfl
  by_cases hx5a : opcode = 90
  · subst hx5a
    injection h with hC; subst hC; rfl
  by_cases hx5b : opcode = 91
  · subst hx5b
    injection h with hC; subst hC; rfl
  by_cases hx5c : opcode = 92
  · subst hx5c
    injection h with hC; subst hC; rfl
  by_cases hx5d : opcode = 93
  · subst hx5d
    injection h with hC; subst hC; rfl
  by_cases hx5e : opcode = 94
  · subst hx5e
    injection h with hC; subst hC; rfl
  by_cases hx5f : opcode = 95
  · subst hx5f
    injection h with hC; subst hC; rfl
  rw [if_neg hx50, if_neg hx51, if_neg hx52, if_neg hx53, if_neg hx54, if_neg hx55, if_neg hx56, if_neg hx57, if_neg hx58, if_neg hx59, if_neg hx5a, if_neg hx5b, if_neg hx5c, if_neg hx5d, if_neg hx5e, if_neg hx5f] at h
  exact EmulateG6_ok_enable s opcode out s' h

/-- Helper: group G4 never writes the interrupt-enable byte on a
normally-continuing step. -/
theorem EmulateG4_ok_enable (s : State) (opcode : Nat) (out : List OutEvent)
    (s' : State) (h : (EmulateG4 s opcode out).2 = Outcome.ok s') :
    s'.enable = s.enable := by
  unfold EmulateG4 at h
  by_cases hx40 : opcode = 64
  · subst hx40
    injection h with hC; subst hC; rfl
  by_cases hx41 : opcode = 65
  · subst hx41
    injection h with hC; subst hC; rfl
  by_cases hx42 : opcode = 66
  · subst hx42
    injection h with hC; subst hC; rfl
  by_cases hx43 : opcode = 67
  · subst hx43
    injection h with hC; subst hC; rfl
  by_cases hx44 : opcode = 68
  · subst hx44
    injection h with hC; subst hC; rfl
  by_cases hx45 : opcode = 69
  · subst hx45
    injection h with hC; subst hC; rfl
  by_cases hx46 : opcode = 70
  · subst hx46
    injection h with hC; subst hC; rfl
  by_cases hx47 : opcode = 71
  · subst hx47
    injection h with hC; subst hC; rfl
  by_cases hx48 : opcode = 72
  · subst hx48
    injection h with hC; subst hC; rfl
  by_cases hx49 : opcode = 73
  · subst hx49
    injection h with hC; subst hC; rfl
  by_cases hx4a : opcode = 74
  · subst hx4a
    injection h with hC; subst hC; rfl
  by_cases hx4b : opcode = 75
  · subst hx4b
    injection h with hC; subst hC; rfl
  by_cases hx4c : opcode = 76
  · subst hx4c
    injection h with hC; subst hC; rfl
  by_cases hx4d : opcode = 77
  · subst hx4d
    injection h with hC; subst hC; rfl
  by_cases hx4e : opcode = 78
  · subst hx4e
    injection h with hC; subst hC; rfl
  by_cases hx4f : opcode = 79
  · subst hx4f
    injection h with hC; subst hC; rfl
  rw [if_neg hx40, if_neg hx41, if_neg hx42, if_neg hx43, if_neg hx44, if_neg hx45, if_neg hx46, if_neg hx47, if_neg hx48, if_neg hx49, if_neg hx4a, if_neg hx4b, if_neg hx4c, if_neg hx4d, if_neg hx4e, if_neg hx4f] at h
  exact EmulateG5_ok_enable s opcode out s' h

/-- Helper: group G3 never writes the interrupt-enable byte on a
normally-continuing step. -/
theorem EmulateG3_ok_enable (s : State) (opcode : Nat) (out : List OutEvent)
    (s' : State) (h : (EmulateG3 s opcode out).2 = Outcome.ok s') :
    s'.enable = s.enable := by
  unfold EmulateG3 at h
  by_cases hx30 : opcode = 48
  · subst hx30
    injection h
  by_cases hx31 : opcode = 49
  · subst hx31
    injection h with hC; subst hC; rfl
  by_cases hx32 : opcode = 50
  · subst hx32
    injection h with hC; subst hC; rfl
  by_cases hx33 : opcode = 51
  · subst hx33
    injection h with hC; subst hC; rfl
  by_cases hx34 : opcode = 52
  · subst hx34
    injection h with hC; subst hC; rfl
  by_cases hx35 : opcode = 53
  · subst hx35
    injection h with hC; subst hC; rfl
  by_cases hx36 : opcode = 54
  · subst hx36
    injection h with hC; subst hC; rfl
  by_cases hx37 : opcode = 55
  · subst hx37
    injection h with hC; subst hC; rfl
  by_cases hx38 : opcode = 56
  · subst hx38
    injection h
  by_cases hx39 : opcode = 57
  · subst hx39
    injection h with hC; subst hC; rfl
  by_cases hx3a : opcode = 58
  · subst hx3a
    injection h with hC; subst hC; rfl
  by_cases hx3b : opcode = 59
  · subst hx3b
    injection h with hC; subst hC; rfl
  by_cases hx3c : opcode = 60
  · subst hx3c
    injection h with hC; subst hC; rfl
  by_cases hx3d : opcode = 61
  · subst hx3d
    injection h with hC; subst hC; rfl
  by_cases hx3f : opcode = 63
  · subst hx3f
    injection h with hC; subst hC; rfl
  rw [if_neg hx30, if_neg hx31, if_neg hx32, if_neg hx33, if_neg hx34, if_neg hx35, if_neg hx36, if_neg hx37, if_neg hx38, if_neg hx39, if_neg hx3a, if_neg hx3b, if_neg hx3c, if_neg hx3d, if_neg hx3f] at h
  exact EmulateG4_ok_enable s opcode out s' h

/-- Helper: group G2 never writes the interrupt-enable byte on a
normally-continuing step. -/
theorem EmulateG2_ok_enable (s : State) (opcode : Nat) (out : List OutEvent)
    (s' : State) (h : (EmulateG2 s opcode out).2 = Outcome.ok s') :
    s'.enable = s.enable := by
  unfold EmulateG2 at h
  by_cases hx20 : opcode = 32
  · subst hx20
    injection h
  by_cases hx21 : opcode = 33
  · subst hx21
    injection h with hC; subst hC; rfl
  by_cases hx22 : opcode = 34
  · subst hx22
    injection h with hC; subst hC; rfl
  by_cases hx23 : opcode = 35
  · subst hx23
    injection h with hC; subst hC; rfl
  by_cases hx24 : opcode = 36
  · subst hx24
    injection h with hC; subst hC; rfl
  by_cases hx25 : opcode = 37
  · subst hx25
    injection h with hC; subst hC; rfl
  by_cases hx26 : opcode = 38
  · subst hx26
    injection h with hC; subst hC; rfl
  by_cases hx27 : opcode = 39
  · subst hx27
    injection h
  by_cases hx28 : opcode = 40
  · subst hx28
    injection h
  by_cases hx29 : opcode = 41
  · subst hx29
    injection h with hC; subst hC; rfl
  by_cases hx2a : opcode = 42
  · subst hx2a
    injection h with hC; subst hC; rfl
  by_cases hx2b : opcode = 43
  · subst hx2b
    injection h with hC; subst hC; rfl
  by_cases hx2c : opcode = 44
  · subst hx2c
    injection h with hC; subst hC; rfl
  by_cases hx2d : opcode = 45
  · subst hx2d
    injection h with hC; subst hC; rfl
  by_cases hx2f : opcode = 47
  · subst hx2f
    injection h with hC; subst hC; rfl
  rw [if_neg hx20, if_neg hx21, if_neg hx22, if_neg hx23, if_neg hx24, if_neg hx25, if_neg hx26, if_neg hx27, if_neg hx28, if_neg hx29, if_neg hx2a, if_neg hx2b, if_neg hx2c, if_neg hx2d, if_neg hx2f] at h
  exact EmulateG3_ok_enable s opcode out s' h

/-- Helper: group G1 never writes the interrupt-enable byte on a
normally-continuing step. -/
theorem EmulateG1_ok_enable (s : State) (opcode : Nat) (out : List OutEvent)
    (s' : State) (h : (EmulateG1 s opcode out).2 = Outcome.ok s') :
    s'.enable = s.enable := by
  unfold EmulateG1 at h
  by_cases hx10 : opcode = 16
  · subst hx10
    injection h
  by_cases hx11 : opcode = 17
  · subst hx11
    injection h with hC; subst hC; rfl
  by_cases hx12 : opcode = 18
  · subst hx12
    injection h with hC; subst hC; rfl
  by_cases hx13 : opcode = 19
  · subst hx13
    injection h with hC; subst hC; rfl
  by_cases hx14 : opcode = 20
  · subst hx14
    injection h with hC; subst hC; rfl
  by_cases hx15 : opcode = 21
  · subst hx15
    injection h with hC; subst hC; rfl
  by_cases hx16 : opcode = 22
  · subst hx16
    injection h with hC; subst hC; rfl
  by_cases hx17 : opcode = 23
  · subst hx17
    revert h; cases s.cond.cy <;> intro h <;>
      (injection h with hC; subst hC; rfl)
  by_cases hx18 : opcode = 24
  · subst hx18
    injection h
  by_cases hx19 : opcode = 25
  · subst hx19
    injection h with hC; subst hC; rfl
  by_cases hx1a : opcode = 26
  · subst hx1a
    injection h with hC; subst hC; rfl
  by_cases hx1b : opcode = 27
  · subst hx1b
    injection h with hC; subst hC; rfl
  by_cases hx1c : opcode = 28
  · subst hx1c
    injection h with hC; subst hC; rfl
  by_cases hx1d : opcode = 29
  · subst hx1d
    injection h with hC; subst hC; rfl
  by_cases hx1e : opcode = 30
  · subst hx1e
    injection h with hC; subst hC; rfl
  by_cases hx1f : opcode = 31
  · subst hx1f
    injection h with hC; subst hC; rfl
  rw [if_neg hx10, if_neg hx11, if_neg hx12, if_neg hx13, if_neg hx14, if_neg hx15, if_neg hx16, if_neg hx17, if_neg hx18, if_neg hx19, if_neg hx1a, if_neg hx1b, if_neg hx1c, if_neg hx1d, if_neg hx1e, if_neg hx1f] at h
  exact EmulateG2_ok_enable s opcode out s' h

/-- Helper: group G0 never writes the interrupt-enable byte on a
normally-continuing step. -/
theorem EmulateG0_ok_enable (s : State) (opcode : Nat) (out : List OutEvent)
    (s' : State) (h : (EmulateG0 s opcode out).2 = Outcome.ok s') :
    s'.enable = s.enable := by
  unfold EmulateG0 at h
  by_cases hx00 : opcode = 0
  · subst hx00
    injection h with hC; subst hC; rfl
  by_cases hx01 : opcode = 1
  · subst hx01
    injection h with hC; subst hC; rfl
  by_cases hx02 : opcode = 2
  · subst hx02
    injection h with hC; subst hC; rfl
  by_cases hx03 : opcode = 3
  · subst hx03
    revert h; cases add8 s.c 1 <;> intro h <;>
      (injection h with hC; subst hC; rfl)
  by_cases hx04 : opcode = 4
  · subst hx04
    injection h with hC; subst hC; rfl
  by_cases hx05 : opcode = 5
  · subst hx05
    injection h with hC; subst hC; rfl
  by_cases hx06 : opcode = 6
  · subst hx06
    injection h with hC; subst hC; rfl
  by_cases hx07 : opcode = 7
  · subst hx07
    injection h with hC; subst hC; rfl
  by_cases hx08 : opcode = 8
  · subst hx08
    injection h
  by_cases hx09 : opcode = 9
  · subst hx09
    injection h with hC; subst hC; rfl
  by_cases hx0a : opcode = 10
  · subst hx0a
    injection h with hC; subst hC; rfl
  by_cases hx0b : opcode = 11
  · subst hx0b
    injection h with hC; subst hC; rfl
  by_cases hx0c : opcode = 12
  · subst hx0c
    injection h with hC; subst hC; rfl
  by_cases hx0d : opcode = 13
  · subst hx0d
    injection h with hC; subst hC; rfl
  by_cases hx0e : opcode = 14
  · subst hx0e
    injection h with hC; subst hC; rfl
  by_cases hx0f : opcode = 15
  · subst hx0f
    injection h with hC; subst hC; rfl
  rw [if_neg hx00, if_neg hx01, if_neg hx02, if_neg hx03, if_neg hx04, if_neg hx05, if_neg hx06, if_neg hx07, if_neg hx08, if_neg hx09, if_neg hx0a, if_neg hx0b, if_neg hx0c, if_neg hx0d, if_neg hx0e, if_neg hx0f] at h
  exact EmulateG1_ok_enable s opcode out s' h

/-- Helper: any opcode outside `implementedOps` takes the `unimplemented`
path: the trace line (pc and opcode) and the report (opcode) are emitted,
the outcome is a fault with exit status 1 and the untouched state. -/
theorem emulate_unimpl (s : State) (h : memRead s.memory s.pc ∉ implementedOps) :
    Emulate s = ([OutEvent.trace s.pc (memRead s.memory s.pc),
                  OutEvent.unimpl (memRead s.memory s.pc)], Outcome.fault s 1) := by
  show EmulateG0 s (memRead s.memory s.pc) [OutEvent.trace s.pc (memRead s.memory s.pc)] = _
  rw [EmulateG0_unimpl s (memRead s.memory s.pc) _ h]
  rfl

/-- Helper: a normally-continuing Emulate step never writes the
interrupt-enable byte. -/
theorem emulate_ok_enable (s : State) (out : List OutEvent) (s' : State)
    (h : Emulate s = (out, Outcome.ok s')) : s'.enable = s.enable := by
  have h2 : (EmulateG0 s (memRead s.memory s.pc)
      [OutEvent.trace s.pc (memRead s.memory s.pc)]).2 = Outcome.ok s' := by
    show (Emulate s).2 = Outcome.ok s'
    rw [h]
  exact EmulateG0_ok_enable s (memRead s.memory s.pc)
    [OutEvent.trace s.pc (memRead s.memory s.pc)] s' h2

/-- Unfolding equation for Emulate: one step is group dispatch on the
fetched opcode, after emitting the trace line. -/
theorem Emulate_eq (s : State) :
    Emulate s = EmulateG0 s (memRead s.memory s.pc)
      [OutEvent.trace s.pc (memRead s.memory s.pc)] := rfl

/-- Reading a just-written cell returns the written byte. -/
theorem memRead_memWrite_same (m : Mem) (a a' v : Nat) (h : a' % 65536 = a % 65536) :
    memRead (memWrite m a v) a' = v % 256 := by
  simp [memRead, memWrite, h]

/-- Reading an unrelated cell is unaffected by a write. -/
theorem memRead_memWrite_ne (m : Mem) (a a' v : Nat) (h : a' % 65536 ≠ a % 65536) :
    memRead (memWrite m a v) a' = memRead m a' := by
  simp [memRead, memWrite, h]

/-- Masking with 0xFF is reduction modulo 256. -/
theorem and255 (x : Nat) : x &&& 0xFF = x % 256 := by
  have h := Nat.and_pow_two_sub_one_eq_mod x 8
  norm_num at h
  exact h

/-- sp-2 then +1 lands on sp-1 (all modulo 2^16). -/
theorem add16_sub16_two_one (sp : Nat) : add16 (sub16 sp 2) 1 = sub16 sp 1 := by
  unfold add16 sub16
  omega

/-- sp-1 and sp-2 are distinct cells. -/
theorem sub16_one_ne_two (sp : Nat) : sub16 sp 1 % 65536 ≠ sub16 sp 2 % 65536 := by
  unfold sub16
  omega

/-- Popping after pushing restores the stack pointer. -/
theorem add16_sub16_two_two (sp : Nat) (h : sp < 65536) : add16 (sub16 sp 2) 2 = sp := by
  unfold add16 sub16
  omega

/-- A byte modulo 256 is itself modulo 256. -/
theorem mod256_mod256 (x : Nat) : x % 256 % 256 = x % 256 :=
  Nat.mod_mod_of_dvd x dvd_rfl

/-- The packed PSW byte fits in 8 bits. -/
theorem packPSW_lt (c : Conditions) : packPSW c < 256 := by
  rcases c with ⟨c1, c2, c3, c4, c5, c6, c7, c8⟩
  cases c1 <;> cases c2 <;> cases c3 <;> cases c4 <;>
    cases c5 <;> cases c6 <;> cases c7 <;> cases c8 <;> decide

/-- A zeroed base state used to build concrete test states. -/
def blank : State := initState []

/-- Concrete state for C1: the three-byte instruction JMP 0x0010 at address 0. -/
def jmpState : State := initState [0xc3, 0x10, 0x00]

/-- Concrete state for C1: JPO at address 0 with the parity flag set
(branch not taken). -/
def jpoState : State :=
  { initState [0xe2, 0x10, 0x00] with
    cond := { cy := false, pad1 := false, p := true, pad2 := false,
              ac := false, pad3 := false, z := false, s := false } }

/-- C1: the claim says a taken jump sets pc exactly to the operand address
(0x0010 here) and a not-taken conditional jump advances 3 bytes.  The code
instead applies the unconditional trailing `s.pc += 1` after a taken jump,
landing at 0x0011, and JPO's not-taken path advances pc by only 1 before
that increment, landing at 2 instead of 3.  This theorem evaluates the
code at both failing inputs. -/
theorem C1_jump_pc_code_bug :
    (forceOk jmpState (Emulate jmpState).2).pc = 0x11 ∧
    (forceOk jpoState (Emulate jpoState).2).pc = 2 := by
  constructor <;> rfl

/-- Concrete state for C2: MOV B,M at address 0 with operand bytes 0x34
0x12 following it, H/L = 0x0005, memory[0x0005] = 0xAA and
memory[0x1234] = 0xBB. -/
def movState : State :=
  { blank with
    l := 5,
    memory := fun i =>
      if i = 0 then 0x46 else if i = 1 then 0x34 else if i = 2 then 0x12
      else if i = 5 then 0xAA else if i = 0x1234 then 0xBB else 0 }

/-- Concrete state for C2: MOV M,B at address 0 with the same layout and
register B = 0x77. -/
def movMState : State :=
  { blank with
    b := 0x77, l := 5,
    memory := fun i =>
      if i = 0 then 0x70 else if i = 1 then 0x34 else if i = 2 then 0x12
      else if i = 5 then 0xAA else 0 }

/-- C2: the claim says MOV r,M / MOV M,r use the memory cell addressed by
the H/L pair.  The code instead addresses memory through `getAddr`, the
little-endian operand bytes following the opcode: with HL = 5 holding 0xAA
and the operand address 0x1234 holding 0xBB, MOV B,M loads 0xBB, and
MOV M,B writes register B to 0x1234, leaving the HL cell untouched. -/
theorem C2_mov_memory_code_bug :
    memRead movState.memory (getHL movState) = 0xAA ∧
    (forceOk movState (Emulate movState).2).b = 0xBB ∧
    memRead (forceOk movMState (Emulate movMState).2).memory 0x1234 = 0x77 ∧
    memRead (forceOk movMState (Emulate movMState).2).memory (getHL movMState) = 0xAA := by
  refine ⟨rfl, rfl, rfl, rfl⟩

/-- Concrete state for C3: ANA B at address 0, accumulator 3, register B 1,
all flags (including AC) false. -/
def anaState : State :=
  { initState [0xa0] with a := 3, b := 1 }

/-- C3: the claim says every ANA/XRA/ORA execution leaves CY false
regardless of the prior flag state.  `doLogicFlags` instead sets
CY to the negation of AC, so with AC false beforehand CY comes out true. -/
theorem C3_logic_carry_code_bug :
    (forceOk anaState (Emulate anaState).2).cond.cy = true := by
  rfl

/-- C4: the claim says setPair stores the low byte of the argument in the
low register and the high byte in the high register.  `setBC` computes the
high register by multiplying by 0xff00 instead of masking (0x1234 gives
0xCC, not 0x12), and `setDE`/`setHL` additionally swap which register gets
which half (the low byte 0x34 lands in D and H, the high registers). -/
theorem C4_setpair_code_bug :
    (setBC blank 0x1234).b = 0xCC ∧ (setBC blank 0x1234).c = 0x34 ∧
    (setDE blank 0x1234).d = 0x34 ∧ (setDE blank 0x1234).e = 0xCC ∧
    (setHL blank 0x1234).h = 0x34 ∧ (setHL blank 0x1234).l = 0xCC := by
  refine ⟨rfl, rfl, rfl, rfl, rfl, rfl⟩

/-- The operand each CMP variant reads, per the source: registers for
0xb8 through 0xbd and 0xbf (CMP A compares A with itself), and for CMP M
(0xbe) the byte at the operand address `getAddr` as the code does. -/
def cmpOperand (st : State) : Nat → Nat
  | 0xb8 => st.b
  | 0xb9 => st.c
  | 0xba => st.d
  | 0xbb => st.e
  | 0xbc => st.h
  | 0xbd => st.l
  | 0xbe => memRead st.memory (getAddr st)
  | _ => st.a

/-- C5: every CMP variant (CMP B/C/D/E/H/L/M/A) continues normally,
leaves the accumulator A unchanged, and updates the condition flags
exactly as `doArithFlags` applied to the 16-bit difference accumulator
minus operand. -/
theorem C5_cmp_preserves_accumulator (s : State)
    (h : memRead s.memory s.pc ∈
      ([0xb8, 0xb9, 0xba, 0xbb, 0xbc, 0xbd, 0xbe, 0xbf] : List Nat)) :
    ∃ s', (Emulate s).2 = Outcome.ok s' ∧ s'.a = s.a ∧
      s'.cond = (doArithFlags s
        (sub16 s.a (cmpOperand s (memRead s.memory s.pc)))).cond := by
  rw [Emulate_eq]
  simp only [List.mem_cons, List.mem_singleton, List.not_mem_nil, or_false] at h
  rcases h with hk | hk | hk | hk | hk | hk | hk | hk <;>
    rw [hk] <;> exact ⟨_, rfl, rfl, rfl⟩

/-- Concrete state for the C5 witness: CMP B at address 0, A = 5, B = 3. -/
def cmpW : State := { initState [0xb8] with a := 5, b := 3 }

/-- C5 witness: the hypotheses hold at `cmpW` and the theorem applies. -/
theorem C5_witness :
    memRead cmpW.memory cmpW.pc ∈
      ([0xb8, 0xb9, 0xba, 0xbb, 0xbc, 0xbd, 0xbe, 0xbf] : List Nat) ∧
    (∃ s', (Emulate cmpW).2 = Outcome.ok s' ∧ s'.a = cmpW.a ∧
      s'.cond = (doArithFlags cmpW
        (sub16 cmpW.a (cmpOperand cmpW (memRead cmpW.memory cmpW.pc)))).cond) :=
  ⟨by decide, C5_cmp_preserves_accumulator cmpW (by decide)⟩

/-- C6: for byte-valued accumulator and register B, executing ADD B
(opcode 0x80) continues normally, stores (a + b) mod 256 in the
accumulator, and sets CY exactly when a + b exceeds 0xFF. -/
theorem C6_add_carry_and_result (s : State) (ha : s.a ≤ 255) (hb : s.b ≤ 255)
    (hop : memRead s.memory s.pc = 0x80) :
    ∃ s', (Emulate s).2 = Outcome.ok s' ∧
      s'.a = (s.a + s.b) % 256 ∧ (s'.cond.cy = true ↔ s.a + s.b > 0xFF) := by
  rw [Emulate_eq, hop]
  have hadd : add16 s.a s.b = s.a + s.b := Nat.mod_eq_of_lt (by omega)
  refine ⟨_, rfl, ?_, ?_⟩
  · show add16 s.a s.b &&& ROUND = (s.a + s.b) % 256
    rw [hadd]
    exact and255 (s.a + s.b)
  · show decide (add16 s.a s.b > CARRY) = true ↔ s.a + s.b > 0xFF
    rw [hadd]
    simp [CARRY]

/-- Concrete state for the C6 witness: ADD B at address 0, A = 200,
B = 100 (a carrying sum). -/
def addW : State := { initState [0x80] with a := 200, b := 100 }

/-- C6 witness: the hypotheses hold at `addW` and the theorem applies. -/
theorem C6_witness :
    addW.a ≤ 255 ∧ addW.b ≤ 255 ∧ memRead addW.memory addW.pc = 0x80 ∧
    (∃ s', (Emulate addW).2 = Outcome.ok s' ∧
      s'.a = (addW.a + addW.b) % 256 ∧
      (s'.cond.cy = true ↔ addW.a + addW.b > 0xFF)) :=
  ⟨by decide, by decide, by decide,
   C6_add_carry_and_result addW (by decide) (by decide) (by decide)⟩

/-- C7: executing any opcode with no case in the Emulate switch emits the
trace line carrying the program counter and the opcode, emits the
`unimplemented` report carrying the opcode, terminates with the non-zero
exit status 1, and leaves the processor state unmodified (the fault
outcome carries the entry state itself). -/
theorem C7_unimplemented_fault (s : State)
    (h : memRead s.memory s.pc ∉ implementedOps) :
    Emulate s = ([OutEvent.trace s.pc (memRead s.memory s.pc),
                  OutEvent.unimpl (memRead s.memory s.pc)], Outcome.fault s 1) :=
  emulate_unimpl s h

/-- Concrete state for the C7 witness: the single-byte image [0xFF]. -/
def romFF : State := initState [0xFF]

/-- C7 witness: 0xFF is unimplemented; loading [0xFF] faults at program
counter 0 reporting opcode 0xFF with exit status 1. -/
theorem C7_witness :
    memRead romFF.memory romFF.pc ∉ implementedOps ∧
    Emulate romFF = ([OutEvent.trace 0 0xFF, OutEvent.unimpl 0xFF],
                     Outcome.fault romFF 1) :=
  ⟨by decide, C7_unimplemented_fault romFF (by decide)⟩

/-- C8: for each register pair (B/C via PUSH B then POP B, D/E via PUSH D
then POP D, H/L via PUSH H then POP H), executing the PUSH instruction and
then immediately the POP instruction of the same pair restores the pair's
original 16-bit value and returns the stack pointer to its value before
the PUSH. -/
theorem C8_push_pop_roundtrip :
    (∀ s s1 s2 : State, s.sp < 65536 →
      memRead s.memory s.pc = 0xc5 → (Emulate s).2 = Outcome.ok s1 →
      memRead s1.memory s1.pc = 0xc1 → (Emulate s1).2 = Outcome.ok s2 →
      getBC s2 = getBC s ∧ s2.sp = s.sp) ∧
    (∀ s s1 s2 : State, s.sp < 65536 →
      memRead s.memory s.pc = 0xd5 → (Emulate s).2 = Outcome.ok s1 →
      memRead s1.memory s1.pc = 0xd1 → (Emulate s1).2 = Outcome.ok s2 →
      getDE s2 = getDE s ∧ s2.sp = s.sp) ∧
    (∀ s s1 s2 : State, s.sp < 65536 →
      memRead s.memory s.pc = 0xe5 → (Emulate s).2 = Outcome.ok s1 →
      memRead s1.memory s1.pc = 0xe1 → (Emulate s1).2 = Outcome.ok s2 →
      getHL s2 = getHL s ∧ s2.sp = s.sp) := by
  refine ⟨?_, ?_, ?_⟩
  ·
    intro s s1 s2 hsp h1 e1 h2 e2
    rw [Emulate_eq, h1] at e1
    injection e1 with hs1
    subst hs1
    rw [Emulate_eq, h2] at e2
    injection e2 with hs2
    subst hs2
    constructor
    · simp only [pop, push, finish, getBC]
      rw [add16_sub16_two_one,
          memRead_memWrite_ne _ _ _ _ (sub16_one_ne_two s.sp),
          memRead_memWrite_same _ _ _ _ rfl,
          memRead_memWrite_same _ _ _ _ rfl,
          mod256_mod256, mod256_mod256]
    · simp only [pop, push, finish]
      exact add16_sub16_two_two s.sp hsp

  ·
    intro s s1 s2 hsp h1 e1 h2 e2
    rw [Emulate_eq, h1] at e1
    injection e1 with hs1
    subst hs1
    rw [Emulate_eq, h2] at e2
    injection e2 with hs2
    subst hs2
    constructor
    · simp only [pop, push, finish, getDE]
      rw [add16_sub16_two_one,
          memRead_memWrite_ne _ _ _ _ (sub16_one_ne_two s.sp),
          memRead_memWrite_same _ _ _ _ rfl,
          memRead_memWrite_same _ _ _ _ rfl,
          mod256_mod256, mod256_mod256]
    · simp only [pop, push, finish]
      exact add16_sub16_two_two s.sp hsp

  ·
    intro s s1 s2 hsp h1 e1 h2 e2
    rw [Emulate_eq, h1] at e1
    injection e1 with hs1
    subst hs1
    rw [Emulate_eq, h2] at e2
    injection e2 with hs2
    subst hs2
    constructor
    · simp only [pop, push, finish, getHL]
      rw [add16_sub16_two_one,
          memRead_memWrite_ne _ _ _ _ (sub16_one_ne_two s.sp),
          memRead_memWrite_same _ _ _ _ rfl,
          memRead_memWrite_same _ _ _ _ rfl,
          mod256_mod256, mod256_mod256]
    · simp only [pop, push, finish]
      exact add16_sub16_two_two s.sp hsp


/-- Concrete state for the C8 witness: PUSH B at 0 followed by POP B at 1,
sp = 16, B/C = 0xABCD. -/
def c8s0 : State :=
  { blank with
    sp := 16, b := 0xAB, c := 0xCD,
    memory := fun i => if i = 0 then 0xc5 else if i = 1 then 0xc1 else 0 }

/-- The state after the PUSH B of `c8s0`. -/
def c8s1 : State := forceOk c8s0 (Emulate c8s0).2

/-- The state after the POP B following it. -/
def c8s2 : State := forceOk c8s0 (Emulate c8s1).2

/-- C8 witness: the hypotheses hold on the concrete PUSH B / POP B run and
the theorem applies. -/
theorem C8_witness :
    c8s0.sp < 65536 ∧ memRead c8s0.memory c8s0.pc = 0xc5 ∧
    (Emulate c8s0).2 = Outcome.ok c8s1 ∧
    memRead c8s1.memory c8s1.pc = 0xc1 ∧
    (Emulate c8s1).2 = Outcome.ok c8s2 ∧
    (getBC c8s2 = getBC c8s0 ∧ c8s2.sp = c8s0.sp) :=
  ⟨by decide, by decide, rfl, by decide, rfl,
   C8_push_pop_roundtrip.1 c8s0 c8s1 c8s2 (by decide) (by decide) rfl (by decide) rfl⟩

/-- Bit layout of the packed PSW byte: one bit per Conditions field in
declaration order. -/
theorem packPSW_testBit (c : Conditions) :
    Nat.testBit (packPSW c) 0 = c.cy ∧ Nat.testBit (packPSW c) 1 = c.pad1 ∧
    Nat.testBit (packPSW c) 2 = c.p ∧ Nat.testBit (packPSW c) 3 = c.pad2 ∧
    Nat.testBit (packPSW c) 4 = c.ac ∧ Nat.testBit (packPSW c) 5 = c.pad3 ∧
    Nat.testBit (packPSW c) 6 = c.z ∧ Nat.testBit (packPSW c) 7 = c.s := by
  rcases c with ⟨c1, c2, c3, c4, c5, c6, c7, c8⟩
  cases c1 <;> cases c2 <;> cases c3 <;> cases c4 <;>
    cases c5 <;> cases c6 <;> cases c7 <;> cases c8 <;> decide

/-- Concrete state for the C9 counterexample: PUSH PSW at address 0,
sp = 16, every Conditions field false (the startup flag state). -/
def c9a : State :=
  { blank with
    a := 0x12, sp := 16,
    memory := fun i => if i = 0 then 0xf5 else 0 }

/-- Concrete state for the C9 counterexample: same, but with the three pad
fields set (reachable through POP PSW of a byte with those bits). -/
def c9b : State :=
  { c9a with
    cond := { cy := false, pad1 := true, p := false, pad2 := true,
              ac := false, pad3 := true, z := false, s := false } }

/-- C9 counterexample: the claim fixes bit 1 of the pushed flag byte to
the constant 1 and bits 3 and 5 to the constant 0, but the byte written to
memory[sp-2] by PUSH PSW has bit 1 = 0 when the pad1 field is false (as at
startup), and bits 3 and 5 = 1 when pad2/pad3 are true. -/
theorem C9_counterexample :
    Nat.testBit (memRead (forceOk c9a (Emulate c9a).2).memory 14) 1 = false ∧
    Nat.testBit (memRead (forceOk c9b (Emulate c9b).2).memory 14) 3 = true ∧
    Nat.testBit (memRead (forceOk c9b (Emulate c9b).2).memory 14) 5 = true := by
  refine ⟨rfl, rfl, rfl⟩

/-- C9 (amended): the flag byte PUSH PSW writes to memory[sp-2] is
`packPSW` of the current Conditions, whose fixed layout is bit 0 = CY,
bit 1 = the pad1 field (not the constant 1), bit 2 = P, bit 3 = the pad2
field (not constant 0), bit 4 = AC, bit 5 = the pad3 field (not constant
0), bit 6 = Z, bit 7 = S; the pad fields are false at startup and are only
ever written by POP PSW. -/
theorem C9_psw_layout_amended (s : State) (s' : State)
    (hop : memRead s.memory s.pc = 0xf5) (he : (Emulate s).2 = Outcome.ok s') :
    memRead s'.memory (sub16 s.sp 2) = packPSW s.cond ∧
    (Nat.testBit (packPSW s.cond) 0 = s.cond.cy ∧
     Nat.testBit (packPSW s.cond) 1 = s.cond.pad1 ∧
     Nat.testBit (packPSW s.cond) 2 = s.cond.p ∧
     Nat.testBit (packPSW s.cond) 3 = s.cond.pad2 ∧
     Nat.testBit (packPSW s.cond) 4 = s.cond.ac ∧
     Nat.testBit (packPSW s.cond) 5 = s.cond.pad3 ∧
     Nat.testBit (packPSW s.cond) 6 = s.cond.z ∧
     Nat.testBit (packPSW s.cond) 7 = s.cond.s) := by
  constructor
  · rw [Emulate_eq, hop] at he
    injection he with hs
    subst hs
    simp only [push, finish]
    rw [memRead_memWrite_same _ _ _ _ rfl]
    exact Nat.mod_eq_of_lt (packPSW_lt s.cond)
  · exact packPSW_testBit s.cond

/-- The state after the PUSH PSW of `c9a`. -/
def c9aNext : State := forceOk c9a (Emulate c9a).2

/-- C9 witness: the hypotheses hold at `c9a` and the amended theorem
applies. -/
theorem C9_witness :
    memRead c9a.memory c9a.pc = 0xf5 ∧
    (Emulate c9a).2 = Outcome.ok c9aNext ∧
    (memRead c9aNext.memory (sub16 c9a.sp 2) = packPSW c9a.cond ∧
     (Nat.testBit (packPSW c9a.cond) 0 = c9a.cond.cy ∧
      Nat.testBit (packPSW c9a.cond) 1 = c9a.cond.pad1 ∧
      Nat.testBit (packPSW c9a.cond) 2 = c9a.cond.p ∧
      Nat.testBit (packPSW c9a.cond) 3 = c9a.cond.pad2 ∧
      Nat.testBit (packPSW c9a.cond) 4 = c9a.cond.ac ∧
      Nat.testBit (packPSW c9a.cond) 5 = c9a.cond.pad3 ∧
      Nat.testBit (packPSW c9a.cond) 6 = c9a.cond.z ∧
      Nat.testBit (packPSW c9a.cond) 7 = c9a.cond.s)) :=
  ⟨by decide, rfl, C9_psw_layout_amended c9a c9aNext (by decide) rfl⟩

/-- C10: every state reachable from a freshly loaded startup state has
interrupt-enable byte 0 (no normally-continuing instruction ever writes
the enable field), and the two interrupt-enable opcodes EI (0xfb) and
DI (0xf3) take the unimplemented fault path with the state unmodified. -/
theorem C10_enable_invariant :
    (∀ (rom : List Nat) (s : State), Reachable rom s → s.enable = 0) ∧
    (∀ t : State, memRead t.memory t.pc = 0xf3 ∨ memRead t.memory t.pc = 0xfb →
      Emulate t = ([OutEvent.trace t.pc (memRead t.memory t.pc),
                    OutEvent.unimpl (memRead t.memory t.pc)], Outcome.fault t 1)) := by
  constructor
  · intro rom s h
    induction h with
    | init => rfl
    | step hr he ih => exact (emulate_ok_enable _ _ _ he).trans ih
  · intro t ht
    apply emulate_unimpl
    rcases ht with h | h <;> rw [h] <;> decide

/-- C10 witness: the startup state for the image [0x00] is reachable and
the theorem gives enable = 0 there. -/
theorem C10_witness :
    Reachable [0] (initState [0]) ∧ (initState [0]).enable = 0 :=
  ⟨Reachable.init, C10_enable_invariant.1 [0] (initState [0]) Reachable.init⟩

end Emu8080
